import Mathlib

/-!
Shallow embedding of the bubble-series geometry of
`src/js/parts-more/BubbleSeries.js` (Highcharts):

* `getRadii` (the RadiusMapper of the spec) — lines 307-351 of the source;
* the per-point marker decision of `translate` — lines 407-429;
* `Axis.prototype.beforePadding` (the AxisPadder) — lines 453-569.

JavaScript numbers are modelled as real numbers (`ℝ`); `Math.ceil` is `Int.ceil`,
`Math.sqrt` is `Real.sqrt`, `Math.min`/`Math.max` are `min`/`max`.  A nullable
JS number is `Option ℝ`; where JS arithmetic or relational operators coerce
`null` to `0` (ToNumber), the embedding applies `jsNum`.  `NaN` propagation from
out-of-bounds array reads is not modelled: theorems that depend on array indexing
carry length-alignment hypotheses instead.
-/

noncomputable section
namespace BubbleModel

/-- JS ToNumber coercion of a nullable numeric value (`null` coerces to `0`). -/
def jsNum (v : Option ℝ) : ℝ := v.getD 0

@[simp] lemma jsNum_some (x : ℝ) : jsNum (some x) = x := rfl

@[simp] lemma jsNum_none : jsNum none = 0 := rfl

/-- `H.pick(a, b)` where the second argument is always defined. -/
def pick1 (a : Option ℝ) (b : ℝ) : ℝ := a.getD b

@[simp] lemma pick1_some (x b : ℝ) : pick1 (some x) b = x := rfl

@[simp] lemma pick1_none (b : ℝ) : pick1 none b = b := rfl

/-- `H.pick(a, b)` where both arguments may be undefined. -/
def pick2 (a b : Option ℝ) : Option ℝ := a.orElse fun _ => b

@[simp] lemma pick2_some (x : ℝ) (b : Option ℝ) : pick2 (some x) b = some x := rfl

@[simp] lemma pick2_none (b : Option ℝ) : pick2 none b = b := rfl

/-- JS `Number.MAX_VALUE` (the largest finite double, exactly `2^1024 - 2^971`). -/
def maxValue : ℝ := 2 ^ 1024 - 2 ^ 971

lemma le_maxValue (x : ℝ) (h : x ≤ 10 ^ 9) : x ≤ maxValue := by
  refine le_trans h ?_
  unfold maxValue
  norm_num

lemma neg_maxValue_le (x : ℝ) (h : -(10 ^ 9) ≤ x) : -maxValue ≤ x := by
  refine le_trans ?_ h
  have := le_maxValue ((10:ℝ) ^ 9) (le_refl _)
  linarith

/-- `H.arrayMin` (`var i = data.length, min = data[0]; while (i--) if (data[i] < min) ...`).
The JS `<` between a `null` and a number coerces `null` to `0`; the kept element is
the raw (possibly null) array entry. -/
def arrayMin (data : List (Option ℝ)) : Option ℝ :=
  data.reverse.foldl (fun m v => if jsNum v < jsNum m then v else m) data.headI

/-- `H.arrayMax`, mirror image of `arrayMin`. -/
def arrayMax (data : List (Option ℝ)) : Option ℝ :=
  data.reverse.foldl (fun m v => if jsNum m < jsNum v then v else m) data.headI

/-- A `minSize`/`maxSize` option after `pInt` parsing: either a pixel count or a
percentage (the regex `/%$/` decides which), both carrying the `pInt` integer. -/
inductive SizeOption where
  | px (v : ℤ)
  | percent (v : ℤ)

/-- The bubble-series options consumed by `getRadii` and `beforePadding`. -/
structure BubbleOptions where
  minSize : SizeOption
  maxSize : SizeOption
  sizeBy : String
  sizeByAbsoluteValue : Bool
  zThreshold : ℝ
  zMin : Option ℝ
  zMax : Option ℝ
  displayNegative : Option Bool

/-- `sizeByArea = options.sizeBy !== 'width'` (line 314). -/
def sizeByArea (o : BubbleOptions) : Bool := !(o.sizeBy == "width")

/-- Lines 333-347 of `getRadii`: the radius computed for one (already remapped)
value against the working floor `zMin'`, the frozen range `zRange` and the pixel
bounds. -/
def radiusOf (o : BubbleOptions) (zRange minSize maxSize zMin' : ℝ)
    (value : Option ℝ) : Option ℝ :=
  match value with
  | none => none
  | some x =>
    if x < zMin' then some (minSize / 2 - 1)
    else
      let pos := if 0 < zRange then (x - zMin') / zRange else 1 / 2
      let pos' := if sizeByArea o = true ∧ 0 ≤ pos then Real.sqrt pos else pos
      some ((⌈minSize + pos' * (maxSize - minSize)⌉ : ℤ) / 2)

/-- The loop of `getRadii` (lines 321-349).  `zMin`/`zMax` are the mutable loop
variables: with `sizeByAbsoluteValue` they are remapped in place on every
non-null value and the remapped values persist into later iterations, while
`zRange` stays frozen at its pre-loop value. -/
def radiiLoop (o : BubbleOptions) (zRange minSize maxSize : ℝ) :
    ℝ → ℝ → List (Option ℝ) → List (Option ℝ)
  | _, _, [] => []
  | zMin, zMax, v :: rest =>
    let doRemap : Bool := o.sizeByAbsoluteValue && v.isSome
    let value : Option ℝ := if doRemap then v.map fun x => |x - o.zThreshold| else v
    let zMax' : ℝ := if doRemap then max (zMax - o.zThreshold) |zMin - o.zThreshold| else zMax
    let zMin' : ℝ := if doRemap then 0 else zMin
    radiusOf o zRange minSize maxSize zMin' value ::
      radiiLoop o zRange minSize maxSize zMin' zMax' rest

/-- `Series.prototype.getRadii(zMin, zMax, minSize, maxSize)` over `this.zData`:
`zRange = zMax - zMin` is computed once (line 316) before the loop. -/
def getRadii (o : BubbleOptions) (zData : List (Option ℝ))
    (zMin zMax minSize maxSize : ℝ) : List (Option ℝ) :=
  radiiLoop o (zMax - zMin) minSize maxSize zMin zMax zData

/-- The value actually sized: `|value - zThreshold|` under `sizeByAbsoluteValue`
(line 328), the raw value otherwise. -/
def workingValue (o : BubbleOptions) (x : ℝ) : ℝ :=
  if o.sizeByAbsoluteValue = true then |x - o.zThreshold| else x

/-- The working floor against which "below range" is decided: `0` under
`sizeByAbsoluteValue` (line 330), the given `zMin` otherwise. -/
def workingZMin (o : BubbleOptions) (zMin : ℝ) : ℝ :=
  if o.sizeByAbsoluteValue = true then 0 else zMin

/-- The remapped ceiling `max(zMax - zThreshold, |zMin - zThreshold|)` of
line 329 under `sizeByAbsoluteValue` (never read back by the radius formula),
the given `zMax` otherwise. -/
def workingZMax (o : BubbleOptions) (zMin zMax : ℝ) : ℝ :=
  if o.sizeByAbsoluteValue = true then max (zMax - o.zThreshold) |zMin - o.zThreshold|
  else zMax

/-- The per-point radius: `radiiLoop` computes exactly this at every index. -/
def pointRadius (o : BubbleOptions) (zRange zMin minSize maxSize : ℝ)
    (v : Option ℝ) : Option ℝ :=
  radiusOf o zRange minSize maxSize (workingZMin o zMin) (v.map fun x => workingValue o x)

lemma radiiLoop_eq_map (o : BubbleOptions) (zRange minSize maxSize : ℝ) :
    ∀ (l : List (Option ℝ)) (zMin zMax : ℝ),
      radiiLoop o zRange minSize maxSize zMin zMax l =
        l.map (pointRadius o zRange zMin minSize maxSize) := by
  intro l
  induction l with
  | nil => intro zMin zMax; rfl
  | cons v rest ih =>
      intro zMin zMax
      rcases v with _ | x
      · -- null head: no remap, state unchanged
        simp only [radiiLoop, Option.isSome_none, Bool.and_false, List.map_cons,
          List.cons.injEq]
        refine ⟨?_, ?_⟩
        · rfl
        · simpa using ih zMin zMax
      · by_cases habs : o.sizeByAbsoluteValue = true
        · -- absolute-value mode: the state collapses to zMin' = 0 and the
          -- per-point radius does not depend on the incoming state at all
          simp only [radiiLoop, habs, Option.isSome_some, Bool.and_self,
            List.map_cons, List.cons.injEq]
          refine ⟨?_, ?_⟩
          · simp [pointRadius, workingZMin, workingValue, habs]
          · simp only [if_true]
            rw [ih 0]
            refine List.map_congr_left fun w _ => ?_
            simp [pointRadius, workingZMin, habs]
        · -- plain mode: the state is never touched
          have habs' : o.sizeByAbsoluteValue = false := by
            revert habs; cases o.sizeByAbsoluteValue <;> simp
          simp only [radiiLoop, habs', Bool.false_and, List.map_cons,
            List.cons.injEq]
          refine ⟨?_, ?_⟩
          · simp [pointRadius, workingZMin, workingValue, habs']
          · simpa using ih zMin zMax

/-- `getRadii` is the pointwise map of `pointRadius` with the frozen range
`zMax - zMin`. -/
lemma getRadii_eq_map (o : BubbleOptions) (zData : List (Option ℝ))
    (zMin zMax minSize maxSize : ℝ) :
    getRadii o zData zMin zMax minSize maxSize =
      zData.map (pointRadius o (zMax - zMin) zMin minSize maxSize) :=
  radiiLoop_eq_map o (zMax - zMin) minSize maxSize zData zMin zMax

lemma getRadii_length (o : BubbleOptions) (zData : List (Option ℝ))
    (zMin zMax minSize maxSize : ℝ) :
    (getRadii o zData zMin zMax minSize maxSize).length = zData.length := by
  rw [getRadii_eq_map]; exact List.length_map _ _

lemma getRadii_getD (o : BubbleOptions) (zData : List (Option ℝ))
    (zMin zMax minSize maxSize : ℝ) (i : ℕ) :
    (getRadii o zData zMin zMax minSize maxSize).getD i none =
      pointRadius o (zMax - zMin) zMin minSize maxSize (zData.getD i none) := by
  rw [getRadii_eq_map]
  by_cases h : i < zData.length
  · rw [List.getD_eq_getElem _ _ (by simpa using h), List.getD_eq_getElem _ _ h,
      List.getElem_map]
  · have h1 : zData.length ≤ i := le_of_not_lt h
    rw [List.getD_eq_default _ _ (by simpa using h1), List.getD_eq_default _ _ h1]
    rfl

/-- The relative position actually used by the loop: numerator against the
working floor, denominator the frozen pre-loop `zRange`. -/
def flooredPos (o : BubbleOptions) (zRange zMin v : ℝ) : ℝ :=
  if 0 < zRange then (workingValue o v - workingZMin o zMin) / zRange else 1 / 2

lemma getRadii_getD_none (o : BubbleOptions) (zData : List (Option ℝ))
    (zMin zMax mS mX : ℝ) (i : ℕ) (hv : zData.getD i none = none) :
    (getRadii o zData zMin zMax mS mX).getD i none = none := by
  rw [getRadii_getD, hv]; rfl

lemma getRadii_getD_below (o : BubbleOptions) (zData : List (Option ℝ))
    (zMin zMax mS mX : ℝ) (i : ℕ) (v : ℝ) (hv : zData.getD i none = some v)
    (hlt : workingValue o v < workingZMin o zMin) :
    (getRadii o zData zMin zMax mS mX).getD i none = some (mS / 2 - 1) := by
  rw [getRadii_getD, hv]
  unfold pointRadius radiusOf
  simp only [Option.map_some']
  rw [if_pos hlt]

lemma flooredPos_nonneg (o : BubbleOptions) (zRange zMin v : ℝ)
    (hge : workingZMin o zMin ≤ workingValue o v) :
    0 ≤ flooredPos o zRange zMin v := by
  unfold flooredPos
  split
  · exact div_nonneg (by linarith) (le_of_lt (by assumption))
  · norm_num

lemma getRadii_getD_some (o : BubbleOptions) (zData : List (Option ℝ))
    (zMin zMax mS mX : ℝ) (i : ℕ) (v : ℝ) (hv : zData.getD i none = some v)
    (hge : workingZMin o zMin ≤ workingValue o v) :
    (getRadii o zData zMin zMax mS mX).getD i none =
      some (((⌈mS + (if sizeByArea o = true then
          Real.sqrt (flooredPos o (zMax - zMin) zMin v)
        else flooredPos o (zMax - zMin) zMin v) * (mX - mS)⌉ : ℤ) : ℝ) / 2) := by
  rw [getRadii_getD, hv]
  have hpos := flooredPos_nonneg o (zMax - zMin) zMin v hge
  unfold pointRadius radiusOf
  simp only [Option.map_some']
  rw [if_neg (not_lt.mpr hge)]
  have hfp : (if 0 < zMax - zMin then
      (workingValue o v - workingZMin o zMin) / (zMax - zMin) else 1 / 2) =
      flooredPos o (zMax - zMin) zMin v := rfl
  rw [hfp]
  split_ifs <;> first | rfl | tauto

/-- The per-point radius in the main branch, as a real number. -/
def mainRadius (o : BubbleOptions) (zRange zMin mS mX v : ℝ) : ℝ :=
  ((⌈mS + (if sizeByArea o = true then Real.sqrt (flooredPos o zRange zMin v)
    else flooredPos o zRange zMin v) * (mX - mS)⌉ : ℤ) : ℝ) / 2

/-- Monotonicity of the main-branch radius in the value, for plain
(non-absolute-value) sizing over a positive range with ordered pixel bounds. -/
lemma mainRadius_mono (o : BubbleOptions) (habs : o.sizeByAbsoluteValue = false)
    (zMin zMax mS mX z1 z2 : ℝ) (hr : 0 < zMax - zMin) (hm : mS ≤ mX)
    (h12 : z1 ≤ z2) (hz1 : zMin ≤ z1) :
    mainRadius o (zMax - zMin) zMin mS mX z1 ≤ mainRadius o (zMax - zMin) zMin mS mX z2 := by
  have hw : ∀ x : ℝ, workingValue o x = x := fun x => by simp [workingValue, habs]
  have hwm : workingZMin o zMin = zMin := by simp [workingZMin, habs]
  have hp1 : flooredPos o (zMax - zMin) zMin z1 = (z1 - zMin) / (zMax - zMin) := by
    simp [flooredPos, hw, hwm, hr]
  have hp2 : flooredPos o (zMax - zMin) zMin z2 = (z2 - zMin) / (zMax - zMin) := by
    simp [flooredPos, hw, hwm, hr]
  have hple : flooredPos o (zMax - zMin) zMin z1 ≤ flooredPos o (zMax - zMin) zMin z2 := by
    rw [hp1, hp2]
    exact (div_le_div_iff_of_pos_right hr).mpr (by linarith)
  have hpnn : 0 ≤ flooredPos o (zMax - zMin) zMin z1 := by
    rw [hp1]; exact div_nonneg (by linarith) (le_of_lt hr)
  have hkey : (if sizeByArea o = true then Real.sqrt (flooredPos o (zMax - zMin) zMin z1)
      else flooredPos o (zMax - zMin) zMin z1) ≤
      (if sizeByArea o = true then Real.sqrt (flooredPos o (zMax - zMin) zMin z2)
      else flooredPos o (zMax - zMin) zMin z2) := by
    by_cases ha : sizeByArea o = true
    · simp only [ha, if_true]
      exact Real.sqrt_le_sqrt hple
    · simp only [ha, if_false]
      exact hple
  unfold mainRadius
  have : mS + (if sizeByArea o = true then Real.sqrt (flooredPos o (zMax - zMin) zMin z1)
      else flooredPos o (zMax - zMin) zMin z1) * (mX - mS) ≤
      mS + (if sizeByArea o = true then Real.sqrt (flooredPos o (zMax - zMin) zMin z2)
      else flooredPos o (zMax - zMin) zMin z2) * (mX - mS) := by
    have := mul_le_mul_of_nonneg_right hkey (by linarith : (0:ℝ) ≤ mX - mS)
    linarith
  have hceil := Int.ceil_le_ceil this
  have : ((⌈mS + (if sizeByArea o = true then Real.sqrt (flooredPos o (zMax - zMin) zMin z1)
      else flooredPos o (zMax - zMin) zMin z1) * (mX - mS)⌉ : ℤ) : ℝ) ≤
      ((⌈mS + (if sizeByArea o = true then Real.sqrt (flooredPos o (zMax - zMin) zMin z2)
      else flooredPos o (zMax - zMin) zMin z2) * (mX - mS)⌉ : ℤ) : ℝ) := by
    exact_mod_cast hceil
  linarith

lemma getRadii_getD_some_main (o : BubbleOptions) (zData : List (Option ℝ))
    (zMin zMax mS mX : ℝ) (i : ℕ) (v : ℝ) (hv : zData.getD i none = some v)
    (hge : workingZMin o zMin ≤ workingValue o v) :
    (getRadii o zData zMin zMax mS mX).getD i none =
      some (mainRadius o (zMax - zMin) zMin mS mX v) :=
  getRadii_getD_some o zData zMin zMax mS mX i v hv hge

/-- The marker decision of `translate` (lines 407-429): a point keeps a sized
shape iff its radius is a number with `radius >= this.minPxSize / 2`; otherwise
`shapeArgs`/`plotY`/`dlBox` are cleared (the bubble is not drawn). -/
def translateShape (minPxSize : ℝ) (radius : Option ℝ) : Option ℝ :=
  match radius with
  | some r => if minPxSize / 2 ≤ r then some r else none
  | none => none

/-- The chart fields read by `beforePadding`. -/
structure ChartState where
  plotWidth : ℝ
  plotHeight : ℝ
  ignoreHiddenSeries : Bool

/-- The user-facing `min`/`max` axis options. -/
structure AxisOptions where
  min : Option ℝ
  max : Option ℝ

/-- The axis fields read and written by `beforePadding`. -/
@[ext] structure AxisState where
  len : ℝ
  min : ℝ
  max : ℝ
  dataMin : ℝ
  dataMax : ℝ
  isXAxis : Bool
  isLog : Bool
  options : AxisOptions
  userMin : Option ℝ
  userMax : Option ℝ
  allowZoomOutside : Bool

/-- The per-series state read and written by `beforePadding`: the static flags
and parallel data arrays, plus the fields it mutates (`minPxSize`, `maxPxSize`,
`radii`). -/
@[ext] structure BubbleSeriesState where
  bubblePadding : Bool
  visible : Bool
  options : BubbleOptions
  xData : List (Option ℝ)
  yData : List (Option ℝ)
  zData : List (Option ℝ)
  minPxSize : ℝ
  maxPxSize : ℝ
  radii : List (Option ℝ)

/-- The guard of the collection loop (lines 476-479):
`series.bubblePadding && (series.visible || !chart.options.chart.ignoreHiddenSeries)`. -/
def seriesActive (c : ChartState) (s : BubbleSeriesState) : Bool :=
  s.bubblePadding && (s.visible || !c.ignoreHiddenSeries)

/-- `smallestSize = Math.min(chart.plotWidth, chart.plotHeight)` (line 463). -/
def smallestSize (c : ChartState) : ℝ := min c.plotWidth c.plotHeight

/-- Lines 490-499: a `minSize`/`maxSize` option in pixels; percentages resolve
against `smallestSize`. -/
def resolveSize (small : ℝ) : SizeOption → ℝ
  | .px v => (v : ℝ)
  | .percent v => small * (v : ℝ) / 100

/-- Lines 500-503: `series.minPxSize = extremes.minSize`,
`series.maxPxSize = Math.max(extremes.maxSize, extremes.minSize)`. -/
def resolveSizes (c : ChartState) (s : BubbleSeriesState) : BubbleSeriesState :=
  { s with
    minPxSize := resolveSize (smallestSize c) s.options.minSize
    maxPxSize := max (resolveSize (smallestSize c) s.options.maxSize)
      (resolveSize (smallestSize c) s.options.minSize) }

/-- Lines 505-521: one series' update of the global `(zMin, zMax)` accumulator,
skipped when `zData` is empty.  `arrayMin`/`arrayMax` results pass through JS
`Math.min`/`Math.max`, which coerce `null` to `0` (`jsNum`). -/
def updateZ (o : BubbleOptions) (zData : List (Option ℝ)) (acc : ℝ × ℝ) : ℝ × ℝ :=
  if zData.length ≠ 0 then
    (pick1 o.zMin (min acc.1 (max (jsNum (arrayMin zData))
        (if o.displayNegative = some false then o.zThreshold else -maxValue))),
      pick1 o.zMax (max acc.2 (jsNum (arrayMax zData))))
  else acc

/-- The size-resolution part of the collection loop: on the X axis every active
series gets its `minPxSize`/`maxPxSize` set; other series are untouched. -/
def collectSeries (c : ChartState) (isX : Bool) (ss : List BubbleSeriesState) :
    List BubbleSeriesState :=
  ss.map fun s => if seriesActive c s && isX then resolveSizes c s else s

/-- The z-extremes part of the collection loop, folding `updateZ` over the
series in order starting from `(Number.MAX_VALUE, -Number.MAX_VALUE)`
(lines 464-465). -/
def collectZ (c : ChartState) (ss : List BubbleSeriesState) : ℝ × ℝ :=
  ss.foldl
    (fun acc s => if seriesActive c s = true then updateZ s.options s.zData acc else acc)
    (maxValue, -maxValue)

/-- The `activeSeries` cache (line 485). -/
def activeList (c : ChartState) (ss : List BubbleSeriesState) :
    List BubbleSeriesState :=
  ss.filter fun s => seriesActive c s

/-- Line 533: on the X axis every active series recomputes `series.radii` from
the global z extremes and its own pixel bounds. -/
def radiiPass (c : ChartState) (isX : Bool) (zMin zMax : ℝ)
    (ss : List BubbleSeriesState) : List BubbleSeriesState :=
  ss.map fun s =>
    if seriesActive c s && isX then
      { s with radii := getRadii s.options s.zData zMin zMax s.minPxSize s.maxPxSize }
    else s

/-- Lines 538-552: one data point's contribution to `(pxMin, pxMax)`.  The
radius read from `series.radii[i]` may be `null`, which JS arithmetic coerces
to `0`. -/
def pxPointStep (amin transA dMin dMax : ℝ) : Option ℝ → Option ℝ → ℝ × ℝ → ℝ × ℝ
  | some x, r, px =>
    if dMin ≤ x ∧ x ≤ dMax then
      (min ((x - amin) * transA - jsNum r) px.1,
        max ((x - amin) * transA + jsNum r) px.2)
    else px
  | none, _, px => px

/-- The `while (i--)` point loop (lines 537-553), iterating indices
`n-1, ..., 0` of the axis-relevant data array. -/
def seriesPxLoop (amin transA dMin dMax : ℝ) (data radii : List (Option ℝ)) :
    ℕ → ℝ × ℝ → ℝ × ℝ
  | 0, px => px
  | i + 1, px =>
    seriesPxLoop amin transA dMin dMax data radii i
      (pxPointStep amin transA dMin dMax (data.getD i none) (radii.getD i none) px)

/-- Lines 526-555 minus the radii recomputation: the `(pxMin, pxMax)`
accumulation over all active series, starting from `(0, axisLength)`
(lines 457-458); the per-series point loop runs only when `range > 0`. -/
def pxAccum (c : ChartState) (a : AxisState) (range : ℝ)
    (ss : List BubbleSeriesState) : ℝ × ℝ :=
  ss.foldl
    (fun px s =>
      if seriesActive c s = true then
        if 0 < range then
          seriesPxLoop a.min (a.len / range) a.dataMin a.dataMax
            (if a.isXAxis = true then s.xData else s.yData) s.radii
            (if a.isXAxis = true then s.xData else s.yData).length px
        else px
      else px)
    (0, a.len)

/-- Line 482: `axis.allowZoomOutside = true` as soon as some series is active. -/
def setAllowZoom (c : ChartState) (a : AxisState) (ss : List BubbleSeriesState) :
    AxisState :=
  if (activeList c ss).length = 0 then a else { a with allowZoomOutside := true }

/-- Lines 557-568: `pxMax -= axisLength`, rescale `transA`, then extend `min`
and `max` on each side whose `pick(axis.options[key], axis.userKey)` is
undefined. -/
def applyPadding (a : AxisState) (range : ℝ) (nActive : ℕ) (px : ℝ × ℝ) :
    AxisState :=
  if nActive ≠ 0 ∧ 0 < range ∧ a.isLog = false then
    let pxMax := px.2 - a.len
    let transA := a.len / range * ((a.len + px.1 - pxMax) / a.len)
    let a1 :=
      if pick2 a.options.min a.userMin = none then
        { a with min := a.min + px.1 / transA }
      else a
    if pick2 a1.options.max a1.userMax = none then
      { a1 with max := a1.max + pxMax / transA }
    else a1
  else a

/-- The series list as it stands after `beforePadding`: sizes resolved and (on
the X axis) radii recomputed with the collected global z extremes. -/
def paddedSeries (c : ChartState) (a : AxisState) (ss : List BubbleSeriesState) :
    List BubbleSeriesState :=
  let ss1 := collectSeries c a.isXAxis ss
  let z := if a.isXAxis = true then collectZ c ss1 else (maxValue, -maxValue)
  radiiPass c a.isXAxis z.1 z.2 ss1

/-- The `(pxMin, pxMax)` pair `beforePadding` accumulates for an axis. -/
def paddingPx (c : ChartState) (a : AxisState) (ss : List BubbleSeriesState) :
    ℝ × ℝ :=
  pxAccum c a (a.max - a.min) (paddedSeries c a ss)

/-- `Axis.prototype.beforePadding` (lines 453-569): returns the updated axis
together with the updated series list. -/
def beforePadding (c : ChartState) (a : AxisState) (ss : List BubbleSeriesState) :
    AxisState × List BubbleSeriesState :=
  (applyPadding (setAllowZoom c a ss) (a.max - a.min) (activeList c ss).length
      (paddingPx c a ss),
    paddedSeries c a ss)

/-! General lemmas about the `beforePadding` pipeline. -/

lemma translateShape_some (m r : ℝ) :
    translateShape m (some r) = if m / 2 ≤ r then some r else none := rfl

lemma translateShape_below (m : ℝ) :
    translateShape m (some (m / 2 - 1)) = none := by
  rw [translateShape_some, if_neg (by linarith)]

lemma updateZ_empty (o : BubbleOptions) (acc : ℝ × ℝ) : updateZ o [] acc = acc := by
  simp [updateZ]

lemma updateZ_ne_nil (o : BubbleOptions) (zd : List (Option ℝ)) (acc : ℝ × ℝ)
    (hne : zd ≠ []) :
    updateZ o zd acc =
      (pick1 o.zMin (min acc.1 (max (jsNum (arrayMin zd))
          (if o.displayNegative = some false then o.zThreshold else -maxValue))),
        pick1 o.zMax (max acc.2 (jsNum (arrayMax zd)))) := by
  unfold updateZ
  rw [if_pos fun h => hne (List.length_eq_zero.mp h)]

lemma arrayMin_all_none (l : List (Option ℝ)) (h : ∀ v ∈ l, v = none) :
    arrayMin l = none := by
  have key : ∀ (t : List (Option ℝ)), (∀ v ∈ t, v = none) →
      t.foldl (fun m v => if jsNum v < jsNum m then v else m) none = none := by
    intro t
    induction t with
    | nil => intro _; rfl
    | cons w t ih =>
        intro h'
        rw [List.foldl_cons]
        have hw : w = none := h' w (by simp)
        subst hw
        rw [if_neg (by simp)]
        exact ih fun v hv => h' v (List.mem_cons_of_mem _ hv)
  unfold arrayMin
  cases l with
  | nil => rfl
  | cons w t =>
      have hh : (w :: t).headI = none := by rw [h w (by simp)]; rfl
      rw [hh]
      exact key _ fun v hv => h v (List.mem_reverse.mp hv)

lemma arrayMax_all_none (l : List (Option ℝ)) (h : ∀ v ∈ l, v = none) :
    arrayMax l = none := by
  have key : ∀ (t : List (Option ℝ)), (∀ v ∈ t, v = none) →
      t.foldl (fun m v => if jsNum m < jsNum v then v else m) none = none := by
    intro t
    induction t with
    | nil => intro _; rfl
    | cons w t ih =>
        intro h'
        rw [List.foldl_cons]
        have hw : w = none := h' w (by simp)
        subst hw
        rw [if_neg (by simp)]
        exact ih fun v hv => h' v (List.mem_cons_of_mem _ hv)
  unfold arrayMax
  cases l with
  | nil => rfl
  | cons w t =>
      have hh : (w :: t).headI = none := by rw [h w (by simp)]; rfl
      rw [hh]
      exact key _ fun v hv => h v (List.mem_reverse.mp hv)

lemma pxPointStep_bounds (amin transA dMin dMax : ℝ) (d r : Option ℝ) (px : ℝ × ℝ) :
    (pxPointStep amin transA dMin dMax d r px).1 ≤ px.1 ∧
      px.2 ≤ (pxPointStep amin transA dMin dMax d r px).2 := by
  cases d with
  | none => exact ⟨le_refl _, le_refl _⟩
  | some x =>
      simp only [pxPointStep]
      by_cases hc : dMin ≤ x ∧ x ≤ dMax
      · rw [if_pos hc]
        exact ⟨min_le_right _ _, le_max_right _ _⟩
      · rw [if_neg hc]
        exact ⟨le_refl _, le_refl _⟩

lemma seriesPxLoop_bounds (amin transA dMin dMax : ℝ) (data radii : List (Option ℝ)) :
    ∀ (n : ℕ) (px : ℝ × ℝ),
      (seriesPxLoop amin transA dMin dMax data radii n px).1 ≤ px.1 ∧
        px.2 ≤ (seriesPxLoop amin transA dMin dMax data radii n px).2 := by
  intro n
  induction n with
  | zero => exact fun px => ⟨le_refl _, le_refl _⟩
  | succ i ih =>
      intro px
      have h1 := pxPointStep_bounds amin transA dMin dMax (data.getD i none)
        (radii.getD i none) px
      have h2 := ih (pxPointStep amin transA dMin dMax (data.getD i none)
        (radii.getD i none) px)
      exact ⟨le_trans h2.1 h1.1, le_trans h1.2 h2.2⟩

lemma pxAccum_bounds (c : ChartState) (a : AxisState) (range : ℝ)
    (ss : List BubbleSeriesState) :
    (pxAccum c a range ss).1 ≤ 0 ∧ a.len ≤ (pxAccum c a range ss).2 := by
  suffices key : ∀ (l : List BubbleSeriesState) (px : ℝ × ℝ),
      ((l.foldl (fun px s =>
        if seriesActive c s = true then
          if 0 < range then
            seriesPxLoop a.min (a.len / range) a.dataMin a.dataMax
              (if a.isXAxis = true then s.xData else s.yData) s.radii
              (if a.isXAxis = true then s.xData else s.yData).length px
          else px
        else px) px).1 ≤ px.1 ∧
        px.2 ≤ (l.foldl (fun px s =>
        if seriesActive c s = true then
          if 0 < range then
            seriesPxLoop a.min (a.len / range) a.dataMin a.dataMax
              (if a.isXAxis = true then s.xData else s.yData) s.radii
              (if a.isXAxis = true then s.xData else s.yData).length px
          else px
        else px) px).2) by
    exact key ss (0, a.len)
  intro l
  induction l with
  | nil => exact fun px => ⟨le_refl _, le_refl _⟩
  | cons s t ih =>
      intro px
      rw [List.foldl_cons]
      refine ⟨le_trans (ih _).1 ?_, le_trans ?_ (ih _).2⟩ <;>
        (split_ifs with h1 h2 <;>
          first
            | exact le_refl _
            | exact (seriesPxLoop_bounds a.min (a.len / range) a.dataMin a.dataMax
                _ s.radii _ px).1
            | exact (seriesPxLoop_bounds a.min (a.len / range) a.dataMin a.dataMax
                _ s.radii _ px).2)

lemma setAllowZoom_min (c : ChartState) (a : AxisState) (ss : List BubbleSeriesState) :
    (setAllowZoom c a ss).min = a.min := by
  unfold setAllowZoom; split <;> rfl

lemma setAllowZoom_max (c : ChartState) (a : AxisState) (ss : List BubbleSeriesState) :
    (setAllowZoom c a ss).max = a.max := by
  unfold setAllowZoom; split <;> rfl

lemma setAllowZoom_len (c : ChartState) (a : AxisState) (ss : List BubbleSeriesState) :
    (setAllowZoom c a ss).len = a.len := by
  unfold setAllowZoom; split <;> rfl

lemma setAllowZoom_isLog (c : ChartState) (a : AxisState) (ss : List BubbleSeriesState) :
    (setAllowZoom c a ss).isLog = a.isLog := by
  unfold setAllowZoom; split <;> rfl

lemma setAllowZoom_options (c : ChartState) (a : AxisState) (ss : List BubbleSeriesState) :
    (setAllowZoom c a ss).options = a.options := by
  unfold setAllowZoom; split <;> rfl

lemma setAllowZoom_userMin (c : ChartState) (a : AxisState) (ss : List BubbleSeriesState) :
    (setAllowZoom c a ss).userMin = a.userMin := by
  unfold setAllowZoom; split <;> rfl

lemma setAllowZoom_userMax (c : ChartState) (a : AxisState) (ss : List BubbleSeriesState) :
    (setAllowZoom c a ss).userMax = a.userMax := by
  unfold setAllowZoom; split <;> rfl

lemma applyPadding_not_cond (a : AxisState) (range : ℝ) (n : ℕ) (px : ℝ × ℝ)
    (h : ¬(n ≠ 0 ∧ 0 < range ∧ a.isLog = false)) :
    applyPadding a range n px = a := by
  unfold applyPadding; rw [if_neg h]

lemma applyPadding_min (a : AxisState) (range : ℝ) (n : ℕ) (px : ℝ × ℝ)
    (h : n ≠ 0 ∧ 0 < range ∧ a.isLog = false) :
    (applyPadding a range n px).min =
      if pick2 a.options.min a.userMin = none then
        a.min + px.1 / (a.len / range * ((a.len + px.1 - (px.2 - a.len)) / a.len))
      else a.min := by
  simp only [applyPadding]
  rw [if_pos h]
  by_cases h1 : pick2 a.options.min a.userMin = none
  · rw [if_pos h1, if_pos h1]
    split <;> rfl
  · rw [if_neg h1, if_neg h1]
    split <;> rfl

lemma applyPadding_max (a : AxisState) (range : ℝ) (n : ℕ) (px : ℝ × ℝ)
    (h : n ≠ 0 ∧ 0 < range ∧ a.isLog = false) :
    (applyPadding a range n px).max =
      if pick2 a.options.max a.userMax = none then
        a.max + (px.2 - a.len) / (a.len / range * ((a.len + px.1 - (px.2 - a.len)) / a.len))
      else a.max := by
  simp only [applyPadding]
  rw [if_pos h]
  by_cases h1 : pick2 a.options.min a.userMin = none
  · rw [if_pos h1]
    by_cases h2 : pick2 a.options.max a.userMax = none
    · rw [if_pos h2, if_pos h2]
    · rw [if_neg h2, if_neg h2]
  · rw [if_neg h1]
    by_cases h2 : pick2 a.options.max a.userMax = none
    · rw [if_pos h2, if_pos h2]
    · rw [if_neg h2, if_neg h2]

lemma seriesActive_of_ignore (c : ChartState) (s : BubbleSeriesState)
    (hig : c.ignoreHiddenSeries = true) :
    seriesActive c s = true ↔ s.bubblePadding = true ∧ s.visible = true := by
  unfold seriesActive
  rw [hig]
  simp

lemma activeList_ne_nil (c : ChartState) (ss : List BubbleSeriesState)
    (hig : c.ignoreHiddenSeries = true) :
    activeList c ss ≠ [] ↔ ∃ s ∈ ss, s.bubblePadding = true ∧ s.visible = true := by
  unfold activeList
  rw [Ne, List.filter_eq_nil_iff]
  push_neg
  exact exists_congr fun s => and_congr_right fun _ => seriesActive_of_ignore c s hig

/-! Spec-side radius formula, for comparison with the code (claims C2, C4).
These two definitions follow the spec's words: the normalization denominator is
the WORKING range `workingZMax - workingZMin` (and its positivity guards the
`0.5` fallback). -/

/-- The relative position as the spec words it for claims C2/C4. -/
def specPos (o : BubbleOptions) (zMin zMax v : ℝ) : ℝ :=
  if 0 < workingZMax o zMin zMax - workingZMin o zMin then
    (workingValue o v - workingZMin o zMin) /
      (workingZMax o zMin zMax - workingZMin o zMin)
  else 1 / 2

/-- The radius as the spec words it for claims C2/C4:
`ceil(minPx + pos * (maxPx - minPx)) / 2` with `pos := sqrt(pos)` when sizing
by area. -/
def specRadius (o : BubbleOptions) (zMin zMax mS mX v : ℝ) : ℝ :=
  ((⌈mS + (if sizeByArea o = true then Real.sqrt (specPos o zMin zMax v)
    else specPos o zMin zMax v) * (mX - mS)⌉ : ℤ) : ℝ) / 2

/-- Width-sized absolute-value configuration used by the C2 counterexample. -/
def c2opts : BubbleOptions :=
  { minSize := .px 0, maxSize := .px 2, sizeBy := "width", sizeByAbsoluteValue := true,
    zThreshold := 0, zMin := none, zMax := none, displayNegative := none }

/-- C2 (counterexample): with `sizeByAbsoluteValue`, `zThreshold = 0`,
`zMin = -1`, `zMax = 1`, `minPx = 0`, `maxPx = 2` and value `z = 1`, the code
computes radius `1/2` (its `pos` divides by the frozen original range
`zMax - zMin = 2`), while the claim's formula — normalizing by the working range
`zMax' - zMin' = 1` — predicts radius `1`; so the claimed radius formula is
false at this input. -/
theorem c2_counterexample :
    getRadii c2opts [some 1] (-1) 1 0 2 = [some (1 / 2)] ∧
      specRadius c2opts (-1) 1 0 2 1 = 1 ∧
      getRadii c2opts [some 1] (-1) 1 0 2 ≠ [some (specRadius c2opts (-1) 1 0 2 1)] := by
  have h1 : getRadii c2opts [some 1] (-1) 1 0 2 = [some (1 / 2)] := by
    norm_num [getRadii, radiiLoop, radiusOf, sizeByArea, c2opts]
  have h2 : specRadius c2opts (-1) 1 0 2 1 = 1 := by
    norm_num [specRadius, specPos, sizeByArea, workingValue, workingZMin, workingZMax,
      c2opts]
  refine ⟨h1, h2, ?_⟩
  rw [h1, h2]
  intro h
  have := List.head_eq_of_cons_eq h
  simp at this

/-- C2 (amended): for every non-null z value not strictly below the working
`zMin`, `getRadii` returns `ceil(minPx + pos * (maxPx - minPx)) / 2`, where
`pos = (workingValue - workingZMin) / (zMax - zMin)` when the ORIGINAL argument
range `zMax - zMin` is strictly positive and `pos = 0.5` otherwise, and `pos` is
replaced by `sqrt(pos)` whenever `sizeBy` is not `"width"` (the code's extra
`pos >= 0` test always holds here). -/
theorem c2_amended (o : BubbleOptions) (zData : List (Option ℝ))
    (zMin zMax mS mX : ℝ) (i : ℕ) (v : ℝ) (hv : zData.getD i none = some v)
    (hge : workingZMin o zMin ≤ workingValue o v) :
    (getRadii o zData zMin zMax mS mX).getD i none =
      some (((⌈mS + (if sizeByArea o = true then
          Real.sqrt (flooredPos o (zMax - zMin) zMin v)
        else flooredPos o (zMax - zMin) zMin v) * (mX - mS)⌉ : ℤ) : ℝ) / 2) :=
  getRadii_getD_some o zData zMin zMax mS mX i v hv hge

/-- Plain width-sized configuration used by the C2 witness. -/
def c2wopts : BubbleOptions :=
  { minSize := .px 2, maxSize := .px 6, sizeBy := "width", sizeByAbsoluteValue := false,
    zThreshold := 0, zMin := none, zMax := none, displayNegative := none }

/-- C2 witness: the amended formula at `z = 3`, `zMin = 1`, `zMax = 5`,
`minPx = 2`, `maxPx = 6`. -/
theorem c2_witness :
    ([some (3:ℝ)].getD 0 none = some 3) ∧
      workingZMin c2wopts 1 ≤ workingValue c2wopts 3 ∧
      (getRadii c2wopts [some 3] 1 5 2 6).getD 0 none =
        some (((⌈(2:ℝ) + (if sizeByArea c2wopts = true then
            Real.sqrt (flooredPos c2wopts (5 - 1) 1 3)
          else flooredPos c2wopts (5 - 1) 1 3) * (6 - 2)⌉ : ℤ) : ℝ) / 2) :=
  ⟨rfl, by norm_num [workingZMin, workingValue, c2wopts],
    c2_amended c2wopts [some 3] 1 5 2 6 0 3 rfl
      (by norm_num [workingZMin, workingValue, c2wopts])⟩

/-- Width-sized absolute-value configuration used by the C4 counterexample. -/
def c4opts : BubbleOptions :=
  { minSize := .px 0, maxSize := .px 4, sizeBy := "width", sizeByAbsoluteValue := true,
    zThreshold := 0, zMin := none, zMax := none, displayNegative := none }

/-- C4 (counterexample): with `sizeByAbsoluteValue`, `zThreshold = 0`,
`zMin = -1`, `zMax = 1`, `minPx = 0`, `maxPx = 4` and value `z = 1`, the
remapped working range is `zMax' - zMin' = 1` but the code's normalization
denominator is the frozen original `zMax - zMin = 2`: the code yields radius
`1`, the claim's remapped-range normalization yields `2`. -/
theorem c4_counterexample :
    getRadii c4opts [some 1] (-1) 1 0 4 = [some 1] ∧
      workingZMax c4opts (-1) 1 - workingZMin c4opts (-1) = 1 ∧
      specRadius c4opts (-1) 1 0 4 1 = 2 ∧
      getRadii c4opts [some 1] (-1) 1 0 4 ≠ [some (specRadius c4opts (-1) 1 0 4 1)] := by
  have h1 : getRadii c4opts [some 1] (-1) 1 0 4 = [some 1] := by
    norm_num [getRadii, radiiLoop, radiusOf, sizeByArea, c4opts]
  have h2 : specRadius c4opts (-1) 1 0 4 1 = 2 := by
    norm_num [specRadius, specPos, sizeByArea, workingValue, workingZMin, workingZMax,
      c4opts]
  refine ⟨h1, by norm_num [workingZMax, workingZMin, c4opts], h2, ?_⟩
  rw [h1, h2]
  intro h
  have := List.head_eq_of_cons_eq h
  simp at this

/-- C4 (amended): with `sizeByAbsoluteValue` true, every non-null z value is
sized through the remapped value `|value - zThreshold|` against the remapped
floor `zMin' = 0` (so no value is "below range"), but the normalization
denominator and its positivity guard use the ORIGINAL argument range
`zMax - zMin`, frozen before the remap; the remapped `zMax'` is never read back
by the radius formula. -/
theorem c4_amended (o : BubbleOptions) (zData : List (Option ℝ))
    (zMin zMax mS mX : ℝ) (i : ℕ) (v : ℝ) (habs : o.sizeByAbsoluteValue = true)
    (hv : zData.getD i none = some v) :
    (getRadii o zData zMin zMax mS mX).getD i none =
      some (((⌈mS + (if sizeByArea o = true then
          Real.sqrt (if 0 < zMax - zMin then |v - o.zThreshold| / (zMax - zMin) else 1 / 2)
        else if 0 < zMax - zMin then |v - o.zThreshold| / (zMax - zMin) else 1 / 2) *
          (mX - mS)⌉ : ℤ) : ℝ) / 2) := by
  have hge : workingZMin o zMin ≤ workingValue o v := by
    simp [workingZMin, workingValue, habs, abs_nonneg]
  rw [getRadii_getD_some o zData zMin zMax mS mX i v hv hge]
  norm_num [flooredPos, workingValue, workingZMin, habs]

/-- Width-sized absolute-value configuration used by the C4 witness. -/
def c4wopts : BubbleOptions :=
  { minSize := .px 0, maxSize := .px 8, sizeBy := "width", sizeByAbsoluteValue := true,
    zThreshold := 1, zMin := none, zMax := none, displayNegative := none }

/-- C4 witness: the amended absolute-value characterization at `z = 4`,
`zThreshold = 1`, `zMin = 0`, `zMax = 2`, `minPx = 0`, `maxPx = 8`. -/
theorem c4_witness :
    c4wopts.sizeByAbsoluteValue = true ∧
      ([some (4:ℝ)].getD 0 none = some 4) ∧
      (getRadii c4wopts [some 4] 0 2 0 8).getD 0 none =
        some (((⌈(0:ℝ) + (if sizeByArea c4wopts = true then
            Real.sqrt (if 0 < (2:ℝ) - 0 then |(4:ℝ) - c4wopts.zThreshold| / (2 - 0) else 1 / 2)
          else if 0 < (2:ℝ) - 0 then |(4:ℝ) - c4wopts.zThreshold| / (2 - 0) else 1 / 2) *
            (8 - 0)⌉ : ℤ) : ℝ) / 2) :=
  ⟨rfl, rfl, c4_amended c4wopts [some 4] 0 2 0 8 0 4 rfl rfl⟩

/-- Width-sized absolute-value configuration used by the C6 counterexample. -/
def c6opts : BubbleOptions :=
  { minSize := .px 0, maxSize := .px 4, sizeBy := "width", sizeByAbsoluteValue := true,
    zThreshold := 0, zMin := none, zMax := none, displayNegative := none }

/-- C6 (counterexample): monotonicity fails for a fixed `sizeByAbsoluteValue`
configuration: with `zMin = -1 < zMax = 1`, `minPx = 0 ≤ maxPx = 4`, and
`z1 = -1 < z2 = 0` both within `[zMin, zMax]`, the radii are `1` and `0`, so
`radius(z1) ≤ radius(z2)` is violated. -/
theorem c6_counterexample :
    ((-1:ℝ) < 0 ∧ (-1:ℝ) ≤ -1 ∧ (0:ℝ) ≤ 1 ∧ (0:ℝ) < 1 - (-1) ∧ (0:ℝ) ≤ 4) ∧
      getRadii c6opts [some (-1), some 0] (-1) 1 0 4 = [some 1, some 0] ∧
      ¬((1:ℝ) ≤ 0) := by
  refine ⟨by norm_num, ?_, by norm_num⟩
  norm_num [getRadii, radiiLoop, radiusOf, sizeByArea, c6opts]

/-- C6 (amended): for a fixed configuration WITHOUT `sizeByAbsoluteValue`, a
strictly positive range `zMax - zMin`, and pixel bounds `minPx ≤ maxPx`, the
radius is monotone: `z1 < z2` both within `[zMin, zMax]` implies
`radius(z1) ≤ radius(z2)`. -/
theorem c6_amended (o : BubbleOptions) (habs : o.sizeByAbsoluteValue = false)
    (zMin zMax mS mX z1 z2 r1 r2 : ℝ) (hr : 0 < zMax - zMin) (hm : mS ≤ mX)
    (h12 : z1 < z2) (hz1 : zMin ≤ z1) (hz2 : z2 ≤ zMax)
    (e1 : getRadii o [some z1] zMin zMax mS mX = [some r1])
    (e2 : getRadii o [some z2] zMin zMax mS mX = [some r2]) :
    r1 ≤ r2 := by
  have hw : ∀ x : ℝ, workingValue o x = x := fun x => by simp [workingValue, habs]
  have hwm : workingZMin o zMin = zMin := by simp [workingZMin, habs]
  have h1 := getRadii_getD_some_main o [some z1] zMin zMax mS mX 0 z1 rfl
    (by rw [hw, hwm]; exact hz1)
  have h2 := getRadii_getD_some_main o [some z2] zMin zMax mS mX 0 z2 rfl
    (by rw [hw, hwm]; linarith)
  rw [e1] at h1
  rw [e2] at h2
  simp only [List.getD, List.get?, Option.getD_some] at h1 h2
  have hr1 : r1 = mainRadius o (zMax - zMin) zMin mS mX z1 := by
    simpa using h1
  have hr2 : r2 = mainRadius o (zMax - zMin) zMin mS mX z2 := by
    simpa using h2
  rw [hr1, hr2]
  exact mainRadius_mono o habs zMin zMax mS mX z1 z2 hr hm (le_of_lt h12) hz1

/-- Plain width-sized configuration used by the C6 witness. -/
def c6wopts : BubbleOptions :=
  { minSize := .px 2, maxSize := .px 6, sizeBy := "width", sizeByAbsoluteValue := false,
    zThreshold := 0, zMin := none, zMax := none, displayNegative := none }

/-- C6 witness: monotonicity at `z1 = 1 < z2 = 2` in range `[0, 4]` with pixel
bounds `[2, 6]`: radii `3/2 ≤ 2`. -/
theorem c6_witness :
    c6wopts.sizeByAbsoluteValue = false ∧ (0:ℝ) < 4 - 0 ∧ (2:ℝ) ≤ 6 ∧
      (1:ℝ) < 2 ∧ (0:ℝ) ≤ 1 ∧ (2:ℝ) ≤ 4 ∧
      getRadii c6wopts [some 1] 0 4 2 6 = [some (3 / 2)] ∧
      getRadii c6wopts [some 2] 0 4 2 6 = [some 2] ∧
      (3:ℝ) / 2 ≤ 2 := by
  have e1 : getRadii c6wopts [some 1] 0 4 2 6 = [some (3 / 2)] := by
    norm_num [getRadii, radiiLoop, radiusOf, sizeByArea, c6wopts]
  have e2 : getRadii c6wopts [some 2] 0 4 2 6 = [some 2] := by
    norm_num [getRadii, radiiLoop, radiusOf, sizeByArea, c6wopts]
  exact ⟨rfl, by norm_num, by norm_num, by norm_num, by norm_num, by norm_num, e1, e2,
    c6_amended c6wopts rfl 0 4 2 6 1 2 (3 / 2) 2 (by norm_num) (by norm_num)
      (by norm_num) (by norm_num) (by norm_num) e1 e2⟩

/-- Configuration with `zMin` override used by the C7 counterexample. -/
def c7opts : BubbleOptions :=
  { minSize := .px 8, maxSize := .px 20, sizeBy := "width", sizeByAbsoluteValue := false,
    zThreshold := 0, zMin := none, zMax := none, displayNegative := none }

/-- C7 (counterexample): a value strictly below the working `zMin` (here
`z = 1 < zMin = 5`, `minPx = 8`) does get the fixed radius `minPx/2 - 1 = 3`,
but `translate` then clears the point's shape (`3 < minPx/2 = 4`), so the
below-range bubble DOES disappear from rendering, contradicting the claim. -/
theorem c7_counterexample :
    getRadii c7opts [some 1] 5 10 8 20 = [some 3] ∧
      translateShape 8 (some 3) = none := by
  constructor
  · norm_num [getRadii, radiiLoop, radiusOf, sizeByArea, c7opts]
  · rw [translateShape_some, if_neg (by norm_num)]

/-- C7 (amended): for every non-null z value strictly below the working `zMin`,
`getRadii` assigns the fixed radius `minPx/2 - 1`, which is strictly below the
minimum-size radius `minPx/2`; consequently `translate` clears the point's
shape, so the below-range point is NOT drawn as a bubble. -/
theorem c7_amended (o : BubbleOptions) (zData : List (Option ℝ))
    (zMin zMax mS mX : ℝ) (i : ℕ) (v : ℝ) (hv : zData.getD i none = some v)
    (hlt : workingValue o v < workingZMin o zMin) :
    (getRadii o zData zMin zMax mS mX).getD i none = some (mS / 2 - 1) ∧
      mS / 2 - 1 < mS / 2 ∧
      translateShape mS (some (mS / 2 - 1)) = none :=
  ⟨getRadii_getD_below o zData zMin zMax mS mX i v hv hlt, by linarith,
    translateShape_below mS⟩

/-- Configuration used by the C7 witness. -/
def c7wopts : BubbleOptions :=
  { minSize := .px 10, maxSize := .px 30, sizeBy := "width", sizeByAbsoluteValue := false,
    zThreshold := 0, zMin := none, zMax := none, displayNegative := none }

/-- C7 witness: at `z = 0 < zMin = 5` with `minPx = 10`, the radius is `4` and
the shape is cleared. -/
theorem c7_witness :
    ([some (0:ℝ)].getD 0 none = some 0) ∧
      workingValue c7wopts 0 < workingZMin c7wopts 5 ∧
      ((getRadii c7wopts [some 0] 5 10 10 30).getD 0 none = some (10 / 2 - 1) ∧
        (10:ℝ) / 2 - 1 < 10 / 2 ∧
        translateShape 10 (some (10 / 2 - 1)) = none) :=
  ⟨rfl, by norm_num [workingValue, workingZMin, c7wopts],
    c7_amended c7wopts [some 0] 5 10 10 30 0 0 rfl
      (by norm_num [workingValue, workingZMin, c7wopts])⟩

/-- Options with `minSize: "50%"`, `maxSize: "10%"` used by claim C9. -/
def c9opts : BubbleOptions :=
  { minSize := .percent 50, maxSize := .percent 10, sizeBy := "area",
    sizeByAbsoluteValue := false, zThreshold := 0, zMin := none, zMax := none,
    displayNegative := none }

/-- Series with `minSize: "50%"`, `maxSize: "10%"` used by claim C9. -/
def c9series : BubbleSeriesState :=
  { bubblePadding := true, visible := true, options := c9opts,
    xData := [some 0], yData := [some 0], zData := [some 1],
    minPxSize := 0, maxPxSize := 0, radii := [] }

/-- C9: in the collection pass every contributing (active) series resolves
percentage `minSize`/`maxSize` against `min(plotWidth, plotHeight)` and gets
`maxPxSize = max(resolvedMax, resolvedMin)` (minimum wins on conflict); in
particular `minSize "50%"`, `maxSize "10%"` on a 200×100 plot area resolve to
`minPxSize = 50` and `maxPxSize = 50`. -/
theorem c9_collection_sizes (c : ChartState) (ss : List BubbleSeriesState)
    (s : BubbleSeriesState) (hmem : s ∈ ss) (ha : seriesActive c s = true) :
    (resolveSizes c s ∈ collectSeries c true ss ∧
      (resolveSizes c s).minPxSize =
        resolveSize (min c.plotWidth c.plotHeight) s.options.minSize ∧
      (resolveSizes c s).maxPxSize =
        max (resolveSize (min c.plotWidth c.plotHeight) s.options.maxSize)
          (resolveSize (min c.plotWidth c.plotHeight) s.options.minSize)) ∧
      (resolveSizes ⟨200, 100, true⟩ c9series).minPxSize = 50 ∧
      (resolveSizes ⟨200, 100, true⟩ c9series).maxPxSize = 50 := by
  have hsmall : smallestSize ⟨200, 100, true⟩ = 100 := by
    unfold smallestSize
    exact min_eq_right (by norm_num)
  refine ⟨⟨?_, rfl, rfl⟩, ?_, ?_⟩
  · have hmm := List.mem_map_of_mem
      (fun s => if seriesActive c s && true then resolveSizes c s else s) hmem
    unfold collectSeries
    simpa [ha] using hmm
  · rw [show (resolveSizes ⟨200, 100, true⟩ c9series).minPxSize =
        resolveSize (smallestSize ⟨200, 100, true⟩) (SizeOption.percent 50) from rfl,
      hsmall]
    norm_num [resolveSize]
  · rw [show (resolveSizes ⟨200, 100, true⟩ c9series).maxPxSize =
        max (resolveSize (smallestSize ⟨200, 100, true⟩) (SizeOption.percent 10))
          (resolveSize (smallestSize ⟨200, 100, true⟩) (SizeOption.percent 50)) from rfl,
      hsmall]
    rw [show resolveSize 100 (SizeOption.percent 10) = 10 by norm_num [resolveSize],
      show resolveSize 100 (SizeOption.percent 50) = 50 by norm_num [resolveSize]]
    exact max_eq_right (by norm_num)

/-- C9 witness: the general part applied to the 200×100 demo chart itself with
the single `c9series`. -/
theorem c9_witness :
    c9series ∈ [c9series] ∧
      seriesActive ⟨200, 100, true⟩ c9series = true ∧
      resolveSizes ⟨200, 100, true⟩ c9series ∈ collectSeries ⟨200, 100, true⟩ true [c9series] ∧
      (resolveSizes ⟨200, 100, true⟩ c9series).minPxSize = 50 ∧
      (resolveSizes ⟨200, 100, true⟩ c9series).maxPxSize = 50 := by
  have h := c9_collection_sizes ⟨200, 100, true⟩ [c9series] c9series (by simp) rfl
  exact ⟨by simp, rfl, h.1.1, h.2.1, h.2.2⟩

/-- `displayNegative: false` configuration used by claim C5. -/
def c5opts : BubbleOptions :=
  { minSize := .px 8, maxSize := .px 20, sizeBy := "width", sizeByAbsoluteValue := false,
    zThreshold := 0, zMin := none, zMax := none, displayNegative := some false }

/-- The C5 series: z values `-5` (below threshold) and `10`. -/
def c5series : BubbleSeriesState :=
  { bubblePadding := true, visible := true, options := c5opts,
    xData := [some 0, some 1], yData := [some 0, some 0],
    zData := [some (-5), some 10], minPxSize := 8, maxPxSize := 20, radii := [] }

/-- C5 (counterexample): with `displayNegative: false`, `zThreshold = 0` and
z-data `[-5, 10]`, the collected global extremes are `(0, 10)` (the `-5` is
clamped out of the minimum), and the below-threshold point still receives the
numeric radius `3 = minPx/2 - 1` — but `translate` then CLEARS its shape
(`3 < minPxSize/2 = 4`), so the point is excluded from display, contradicting
the claim's "still rendered as shapes by translate". -/
theorem c5_counterexample :
    collectZ ⟨100, 100, true⟩ [c5series] = (0, 10) ∧
      getRadii c5opts [some (-5), some 10] 0 10 8 20 = [some 3, some 10] ∧
      translateShape 8 (some 3) = none := by
  refine ⟨?_, ?_, ?_⟩
  · have h2 : min maxValue (0:ℝ) = 0 := min_eq_right (le_maxValue 0 (by norm_num))
    have h3 : max (-maxValue) (10:ℝ) = 10 := max_eq_right (neg_maxValue_le 10 (by norm_num))
    have ham : arrayMin [some (-5:ℝ), some 10] = some (-5) := by
      norm_num [arrayMin, jsNum]
    have haM : arrayMax [some (-5:ℝ), some 10] = some 10 := by
      norm_num [arrayMax, jsNum]
    have step : collectZ ⟨100, 100, true⟩ [c5series] =
        updateZ c5opts [some (-5), some 10] (maxValue, -maxValue) := by
      simp [collectZ, seriesActive, c5series]
    rw [step, updateZ_ne_nil _ _ _ (by simp), ham, haM]
    norm_num [c5opts, h2, h3]
  · norm_num [getRadii, radiiLoop, radiusOf, sizeByArea, c5opts]
  · rw [translateShape_some, if_neg (by norm_num)]

/-- C5 (amended): with `displayNegative: false` and no `zMin` override, a
series' contribution to the global minimum is `max(arrayMin(zData), zThreshold)`
— clamped to at least `zThreshold`, so values below the threshold cannot drag
the minimum down — and a z value below the resulting working minimum still
receives the numeric radius `minPx/2 - 1`; it is however NOT rendered as a
shape: `translate` clears it because that radius is below `minPxSize/2`. -/
theorem c5_amended (o : BubbleOptions) (zd : List (Option ℝ)) (acc : ℝ × ℝ)
    (hne : zd ≠ []) (hd : o.displayNegative = some false) (hz : o.zMin = none) :
    ((updateZ o zd acc).1 = min acc.1 (max (jsNum (arrayMin zd)) o.zThreshold) ∧
      o.zThreshold ≤ max (jsNum (arrayMin zd)) o.zThreshold) ∧
      ∀ (zd2 : List (Option ℝ)) (zMinG zMax mS mX v : ℝ) (i : ℕ),
        zd2.getD i none = some v → o.sizeByAbsoluteValue = false → v < zMinG →
          (getRadii o zd2 zMinG zMax mS mX).getD i none = some (mS / 2 - 1) ∧
            translateShape mS (some (mS / 2 - 1)) = none := by
  constructor
  · constructor
    · rw [updateZ_ne_nil o zd acc hne, hd]
      simp [hz]
    · exact le_max_right _ _
  · intro zd2 zMinG zMax mS mX v i hv habs hlt
    refine ⟨getRadii_getD_below o zd2 zMinG zMax mS mX i v hv ?_, translateShape_below mS⟩
    simpa [workingValue, workingZMin, habs] using hlt

/-- C5 witness: the amended claim at the concrete `c5opts` input. -/
theorem c5_witness :
    (([some (-5:ℝ), some 10] : List (Option ℝ)) ≠ []) ∧
      c5opts.displayNegative = some false ∧ c5opts.zMin = none ∧
      (updateZ c5opts [some (-5), some 10] (maxValue, -maxValue)).1 =
        min maxValue (max (jsNum (arrayMin [some (-5), some 10])) c5opts.zThreshold) ∧
      c5opts.zThreshold ≤ max (jsNum (arrayMin [some (-5), some 10])) c5opts.zThreshold ∧
      ([some (-5:ℝ), some 10] : List (Option ℝ)).getD 0 none = some (-5) ∧
      c5opts.sizeByAbsoluteValue = false ∧ ((-5:ℝ) < 0) ∧
      (getRadii c5opts [some (-5), some 10] 0 10 8 20).getD 0 none = some (8 / 2 - 1) ∧
      translateShape 8 (some (8 / 2 - 1)) = none := by
  have h := c5_amended c5opts [some (-5), some 10] (maxValue, -maxValue) (by simp) rfl rfl
  have h2 := h.2 [some (-5), some 10] 0 10 8 20 (-5) 0 rfl rfl (by norm_num)
  exact ⟨by simp, rfl, rfl, h.1.1, h.1.2, rfl, rfl, by norm_num, h2.1, h2.2⟩

/-- Plain options used by the C10 series. -/
def c10opts : BubbleOptions :=
  { minSize := .px 8, maxSize := .px 20, sizeBy := "area",
    sizeByAbsoluteValue := false, zThreshold := 0, zMin := none, zMax := none,
    displayNegative := none }

/-- All-null-z series used by claim C10. -/
def c10nullSeries : BubbleSeriesState :=
  { bubblePadding := true, visible := true, options := c10opts,
    xData := [some 0, some 1], yData := [some 0, some 0], zData := [none, none],
    minPxSize := 0, maxPxSize := 0, radii := [] }

/-- Ordinary series with z-data `[5, 10]` used by claim C10. -/
def c10realSeries : BubbleSeriesState :=
  { bubblePadding := true, visible := true, options := c10opts,
    xData := [some 0, some 1], yData := [some 0, some 0], zData := [some 5, some 10],
    minPxSize := 0, maxPxSize := 0, radii := [] }

/-- C10 (counterexample): a series whose z-data is all null is NOT skipped by
the collection pass: `arrayMin`/`arrayMax` return `null`, which
`Math.max`/`Math.min` coerce to `0`, so the all-null series pulls the global
extremes to `(0, 0)`; next to a series with z-data `[5, 10]` the collected
extremes become `(0, 10)` instead of `(5, 10)`. -/
theorem c10_counterexample :
    collectZ ⟨100, 100, true⟩ [c10nullSeries, c10realSeries] = (0, 10) ∧
      collectZ ⟨100, 100, true⟩ [c10realSeries] = (5, 10) ∧
      collectZ ⟨100, 100, true⟩ [c10nullSeries, c10realSeries] ≠
        collectZ ⟨100, 100, true⟩ [c10realSeries] := by
  have hminN : arrayMin [none, none] = (none : Option ℝ) :=
    arrayMin_all_none _ (by simp)
  have hmaxN : arrayMax [none, none] = (none : Option ℝ) :=
    arrayMax_all_none _ (by simp)
  have hamR : arrayMin [some (5:ℝ), some 10] = some 5 := by
    norm_num [arrayMin, jsNum]
  have haMR : arrayMax [some (5:ℝ), some 10] = some 10 := by
    norm_num [arrayMax, jsNum]
  have stepN : updateZ c10opts [none, none] (maxValue, -maxValue) = (0, 0) := by
    have h1 : max (0:ℝ) (-maxValue) = 0 := max_eq_left (neg_maxValue_le 0 (by norm_num))
    have h2 : min maxValue (0:ℝ) = 0 := min_eq_right (le_maxValue 0 (by norm_num))
    have h3 : max (-maxValue) (0:ℝ) = 0 := max_eq_right (neg_maxValue_le 0 (by norm_num))
    rw [updateZ_ne_nil _ _ _ (by simp), hminN, hmaxN]
    norm_num [c10opts, h1, h2, h3, show ((none : Option Bool) = some false) = False by simp]
  have e1 : collectZ ⟨100, 100, true⟩ [c10nullSeries, c10realSeries] = (0, 10) := by
    have h4 : max (5:ℝ) (-maxValue) = 5 := max_eq_left (neg_maxValue_le 5 (by norm_num))
    have h5 : min (0:ℝ) 5 = 0 := min_eq_left (by norm_num)
    have h6 : max (0:ℝ) 10 = 10 := max_eq_right (by norm_num)
    have unfoldZ : collectZ ⟨100, 100, true⟩ [c10nullSeries, c10realSeries] =
        updateZ c10opts [some 5, some 10]
          (updateZ c10opts [none, none] (maxValue, -maxValue)) := by
      simp [collectZ, seriesActive, c10nullSeries, c10realSeries]
    rw [unfoldZ, stepN, updateZ_ne_nil _ _ _ (by simp), hamR, haMR]
    norm_num [c10opts, h4, h5, h6, show ((none : Option Bool) = some false) = False by simp]
  have e2 : collectZ ⟨100, 100, true⟩ [c10realSeries] = (5, 10) := by
    have h4 : max (5:ℝ) (-maxValue) = 5 := max_eq_left (neg_maxValue_le 5 (by norm_num))
    have h5 : min maxValue (5:ℝ) = 5 := min_eq_right (le_maxValue 5 (by norm_num))
    have h6 : max (-maxValue) (10:ℝ) = 10 := max_eq_right (neg_maxValue_le 10 (by norm_num))
    have unfoldZ : collectZ ⟨100, 100, true⟩ [c10realSeries] =
        updateZ c10opts [some 5, some 10] (maxValue, -maxValue) := by
      simp [collectZ, seriesActive, c10realSeries]
    rw [unfoldZ, updateZ_ne_nil _ _ _ (by simp), hamR, haMR]
    norm_num [c10opts, h4, h5, h6, show ((none : Option Bool) = some false) = False by simp]
  refine ⟨e1, e2, ?_⟩
  rw [e1, e2]
  intro h
  have := congrArg Prod.fst h
  norm_num at this

/-- C10 (amended): a series with EMPTY z-data contributes nothing — `updateZ`
is the identity and the collected extremes with the series spliced in are those
without it — while a series whose z-data is all null (with no `zMin`/`zMax`
overrides and `displayNegative` not `false`) contributes the coerced value `0`
to both accumulators: `updateZ` maps `acc` to `(min acc.1 0, max acc.2 0)`, so
the global extremes change unless they already straddle `0`; the pass itself is
total (no fault). -/
theorem c10_amended (c : ChartState) (o : BubbleOptions) (acc : ℝ × ℝ)
    (s0 : BubbleSeriesState) (hempty : s0.zData = [])
    (l1 l2 : List BubbleSeriesState)
    (zdAllNull : List (Option ℝ)) (hne : zdAllNull ≠ [])
    (hall : ∀ v ∈ zdAllNull, v = none)
    (ho1 : o.zMin = none) (ho2 : o.zMax = none) (ho3 : o.displayNegative ≠ some false) :
    updateZ o [] acc = acc ∧
      collectZ c (l1 ++ s0 :: l2) = collectZ c (l1 ++ l2) ∧
      updateZ o zdAllNull acc = (min acc.1 0, max acc.2 0) := by
  refine ⟨updateZ_empty o acc, ?_, ?_⟩
  · unfold collectZ
    rw [List.foldl_append, List.foldl_append, List.foldl_cons]
    congr 1
    by_cases hact : seriesActive c s0 = true
    · rw [if_pos hact, hempty, updateZ_empty]
    · rw [if_neg hact]
  · rw [updateZ_ne_nil o zdAllNull acc hne, ho1, ho2]
    simp only [pick1_none]
    rw [arrayMin_all_none _ hall, arrayMax_all_none _ hall]
    rw [if_neg ho3]
    simp only [jsNum_none]
    rw [max_eq_left (neg_maxValue_le 0 (by norm_num))]

/-- Series with empty z-data used by the C10 witness. -/
def c10emptySeries : BubbleSeriesState :=
  { bubblePadding := true, visible := true, options := c10opts,
    xData := [], yData := [], zData := [],
    minPxSize := 0, maxPxSize := 0, radii := [] }

/-- C10 witness: the amended behaviour at a concrete input — the empty-z series
contributes nothing next to `c10realSeries`, and the all-null z-data `[none,
none]` maps the accumulator `(3, 4)` to `(min 3 0, max 4 0) = (0, 4)`. -/
theorem c10_witness :
    c10emptySeries.zData = [] ∧
      (([none, none] : List (Option ℝ)) ≠ []) ∧
      c10nullSeries.options.zMin = none ∧ c10nullSeries.options.zMax = none ∧
      c10nullSeries.options.displayNegative ≠ some false ∧
      updateZ c10nullSeries.options [] (3, 4) = (3, 4) ∧
      collectZ ⟨100, 100, true⟩ [c10emptySeries, c10realSeries] =
        collectZ ⟨100, 100, true⟩ [c10realSeries] ∧
      updateZ c10nullSeries.options [none, none] (3, 4) = (min 3 0, max 4 0) := by
  have h := c10_amended ⟨100, 100, true⟩ c10nullSeries.options (3, 4) c10emptySeries rfl
    [] [c10realSeries] [none, none] (by simp) (by simp) rfl rfl (by simp [c10nullSeries, c10opts])
  exact ⟨rfl, by simp, rfl, rfl, by simp [c10nullSeries, c10opts], h.1,
    by simpa using h.2.1, h.2.2⟩

/-! Concrete scenario A — a single bubble series on a 100px X axis over the
data range `[0, 1]`, with a large interior bubble.  Used by claims C1 and C3. -/

/-- Scenario A chart: 200×200 plot box. -/
def chartA : ChartState := ⟨200, 200, true⟩

/-- Scenario A options: area sizing, `minSize` 0px, `maxSize` 120px. -/
def optsA : BubbleOptions :=
  { minSize := .px 0, maxSize := .px 120, sizeBy := "area", sizeByAbsoluteValue := false,
    zThreshold := 0, zMin := none, zMax := none, displayNegative := none }

/-- Scenario A series: points at x = 0, 1/2, 1 with z = 1, 2, 1. -/
def seriesA : BubbleSeriesState :=
  { bubblePadding := true, visible := true, options := optsA,
    xData := [some 0, some (1/2), some 1], yData := [some 0, some 0, some 0],
    zData := [some 1, some 2, some 1], minPxSize := 0, maxPxSize := 0, radii := [] }

/-- Scenario A axis: X axis, 100px long, `min = 0`, `max = 1`, unpinned. -/
def axisA : AxisState :=
  { len := 100, min := 0, max := 1, dataMin := 0, dataMax := 1, isXAxis := true,
    isLog := false, options := ⟨none, none⟩, userMin := none, userMax := none,
    allowZoomOutside := false }

/-- Scenario A series after size resolution. -/
def seriesA1 : BubbleSeriesState := { seriesA with minPxSize := 0, maxPxSize := 120 }

/-- Scenario A series after the radii pass: radii `[0, 60, 0]`. -/
def seriesA2 : BubbleSeriesState := { seriesA1 with radii := [some 0, some 60, some 0] }

/-- Scenario A axis after the first padding pass. -/
def axisA2 : AxisState :=
  { axisA with min := -(1/8), max := 9/8, allowZoomOutside := true }

lemma aCollect : collectSeries chartA true [seriesA] = [seriesA1] := by
  simp [collectSeries, seriesActive, resolveSizes, resolveSize, smallestSize, chartA,
    seriesA, seriesA1, optsA]

lemma aZ : collectZ chartA [seriesA1] = (1, 2) := by
  have h1 : max (1:ℝ) (-maxValue) = 1 := max_eq_left (neg_maxValue_le 1 (by norm_num))
  have h2 : min maxValue (1:ℝ) = 1 := min_eq_right (le_maxValue 1 (by norm_num))
  have h3 : max (-maxValue) (2:ℝ) = 2 := max_eq_right (neg_maxValue_le 2 (by norm_num))
  simp [collectZ, seriesActive, updateZ, arrayMin, arrayMax, seriesA1, seriesA, optsA,
    chartA, jsNum, h1, h2, h3]

lemma aRadii : getRadii optsA [some 1, some 2, some 1] 1 2 0 120 =
    [some 0, some 60, some 0] := by
  rw [getRadii_eq_map]
  simp [pointRadius, workingValue, workingZMin, radiusOf, sizeByArea, optsA]
  norm_num [Real.sqrt_one]

lemma aPadded : paddedSeries chartA axisA [seriesA] = [seriesA2] := by
  simp only [paddedSeries, show axisA.isXAxis = true from rfl, if_true, aCollect, aZ]
  simp only [radiiPass, List.map,
    show (seriesActive chartA seriesA1 && true) = true from rfl, if_true]
  rw [show getRadii seriesA1.options seriesA1.zData 1 2 seriesA1.minPxSize
      seriesA1.maxPxSize = [some 0, some 60, some 0] from aRadii]
  rfl

lemma aPx : paddingPx chartA axisA [seriesA] = (-10, 110) := by
  rw [paddingPx, aPadded]
  simp only [pxAccum, List.foldl, seriesActive, seriesA2, seriesA1, seriesA, axisA, chartA]
  norm_num [seriesPxLoop, pxPointStep, List.getD, jsNum]

lemma aPass1 : (beforePadding chartA axisA [seriesA]).1 = axisA2 := by
  rw [show (beforePadding chartA axisA [seriesA]).1 =
      applyPadding (setAllowZoom chartA axisA [seriesA]) (axisA.max - axisA.min)
        (activeList chartA [seriesA]).length (paddingPx chartA axisA [seriesA]) from rfl,
    aPx]
  simp only [setAllowZoom, activeList, applyPadding, axisA, axisA2, chartA, seriesA, optsA]
  norm_num [seriesActive, List.filter, pick2]

/-- C1 (counterexample): in scenario A the accumulated overflows are
`pxMin = -10`, `pxMax = 110 ≥ axisLength = 100`; the claim's scale factor
`(axisLength + pxMin - pxMax) / axisLength` — with `pxMax` the accumulated
(pre-subtraction) overflow, as the claim defines it — would put
`axis.min` at `0 + (-10)/(100·(100 - 10 - 110)/100) = 1/2`, but `beforePadding`
actually moves `axis.min` to `-1/8` (the code subtracts `axisLength` from
`pxMax` before forming the factor). -/
theorem c1_counterexample :
    activeList chartA [seriesA] ≠ [] ∧
      0 < axisA.max - axisA.min ∧ axisA.isLog = false ∧
      pick2 axisA.options.min axisA.userMin = none ∧
      paddingPx chartA axisA [seriesA] = (-10, 110) ∧
      (beforePadding chartA axisA [seriesA]).1.min = -(1/8) ∧
      axisA.min + (paddingPx chartA axisA [seriesA]).1 /
          (axisA.len / (axisA.max - axisA.min) *
            ((axisA.len + (paddingPx chartA axisA [seriesA]).1 -
              (paddingPx chartA axisA [seriesA]).2) / axisA.len)) = 1/2 ∧
      (-(1/8) : ℝ) ≠ 1/2 := by
  refine ⟨?_, by norm_num [axisA], rfl, rfl, aPx, ?_, ?_, by norm_num⟩
  · simp [activeList, seriesActive, seriesA, chartA]
  · rw [aPass1]; rfl
  · rw [aPx]
    norm_num [axisA]

/-- C1 (amended): for every axis, `pxMin ≤ 0` and `pxMax ≥ axisLength` hold for
the accumulated overflows; when some visible bubble-padding series exists (with
`ignoreHiddenSeries` on), the data range is strictly positive and the axis is
not logarithmic, the pass rescales `transA` by
`(axisLength + pxMin - (pxMax - axisLength)) / axisLength` — i.e. with the
post-subtraction right overflow — and extends `axis.min` by `pxMin / transA'`
and `axis.max` by `(pxMax - axisLength) / transA'`, each side only when neither
the axis option nor the user extreme pins it; otherwise `axis.min` and
`axis.max` are left unchanged. -/
theorem c1_padding_extends_axis (c : ChartState) (a : AxisState)
    (ss : List BubbleSeriesState) (hig : c.ignoreHiddenSeries = true) :
    (paddingPx c a ss).1 ≤ 0 ∧ a.len ≤ (paddingPx c a ss).2 ∧
      ((∃ s ∈ ss, s.bubblePadding = true ∧ s.visible = true) → 0 < a.max - a.min →
        a.isLog = false →
        ((beforePadding c a ss).1.min =
          (if pick2 a.options.min a.userMin = none then
            a.min + (paddingPx c a ss).1 /
              (a.len / (a.max - a.min) *
                ((a.len + (paddingPx c a ss).1 -
                  ((paddingPx c a ss).2 - a.len)) / a.len))
          else a.min) ∧
         (beforePadding c a ss).1.max =
          (if pick2 a.options.max a.userMax = none then
            a.max + ((paddingPx c a ss).2 - a.len) /
              (a.len / (a.max - a.min) *
                ((a.len + (paddingPx c a ss).1 -
                  ((paddingPx c a ss).2 - a.len)) / a.len))
          else a.max))) ∧
      (((¬∃ s ∈ ss, s.bubblePadding = true ∧ s.visible = true) ∨ a.max - a.min ≤ 0 ∨
          a.isLog = true) →
        (beforePadding c a ss).1.min = a.min ∧ (beforePadding c a ss).1.max = a.max) := by
  have hbp1 : (beforePadding c a ss).1 =
      applyPadding (setAllowZoom c a ss) (a.max - a.min)
        (activeList c ss).length (paddingPx c a ss) := rfl
  have hbounds := pxAccum_bounds c a (a.max - a.min) (paddedSeries c a ss)
  refine ⟨hbounds.1, hbounds.2, ?_, ?_⟩
  · intro hex hr hlog
    have hne : activeList c ss ≠ [] := (activeList_ne_nil c ss hig).mpr hex
    have hn : (activeList c ss).length ≠ 0 := fun h => hne (List.length_eq_zero.mp h)
    have hcond : (activeList c ss).length ≠ 0 ∧ 0 < a.max - a.min ∧
        (setAllowZoom c a ss).isLog = false := ⟨hn, hr, by rw [setAllowZoom_isLog]; exact hlog⟩
    constructor
    · rw [hbp1, applyPadding_min _ _ _ _ hcond, setAllowZoom_options, setAllowZoom_userMin,
        setAllowZoom_min, setAllowZoom_len]
    · rw [hbp1, applyPadding_max _ _ _ _ hcond, setAllowZoom_options, setAllowZoom_userMax,
        setAllowZoom_max, setAllowZoom_len]
  · intro hneg
    have hncond : ¬((activeList c ss).length ≠ 0 ∧ 0 < a.max - a.min ∧
        (setAllowZoom c a ss).isLog = false) := by
      rcases hneg with h | h | h
      · intro hc
        exact hc.1 (by
          rw [List.length_eq_zero]
          by_contra hne
          exact h ((activeList_ne_nil c ss hig).mp hne))
      · intro hc
        linarith [hc.2.1]
      · intro hc
        rw [setAllowZoom_isLog, h] at hc
        simp at hc
    rw [hbp1, applyPadding_not_cond _ _ _ _ hncond]
    exact ⟨setAllowZoom_min c a ss, setAllowZoom_max c a ss⟩

/-- C1 witness: the amended claim applied to scenario A (active series, range
`1 > 0`, linear axis, both sides unpinned). -/
theorem c1_witness :
    chartA.ignoreHiddenSeries = true ∧
      (∃ s ∈ [seriesA], s.bubblePadding = true ∧ s.visible = true) ∧
      0 < axisA.max - axisA.min ∧ axisA.isLog = false ∧
      ((beforePadding chartA axisA [seriesA]).1.min =
        (if pick2 axisA.options.min axisA.userMin = none then
          axisA.min + (paddingPx chartA axisA [seriesA]).1 /
            (axisA.len / (axisA.max - axisA.min) *
              ((axisA.len + (paddingPx chartA axisA [seriesA]).1 -
                ((paddingPx chartA axisA [seriesA]).2 - axisA.len)) / axisA.len))
        else axisA.min) ∧
       (beforePadding chartA axisA [seriesA]).1.max =
        (if pick2 axisA.options.max axisA.userMax = none then
          axisA.max + ((paddingPx chartA axisA [seriesA]).2 - axisA.len) /
            (axisA.len / (axisA.max - axisA.min) *
              ((axisA.len + (paddingPx chartA axisA [seriesA]).1 -
                ((paddingPx chartA axisA [seriesA]).2 - axisA.len)) / axisA.len))
        else axisA.max)) := by
  have hex : ∃ s ∈ [seriesA], s.bubblePadding = true ∧ s.visible = true :=
    ⟨seriesA, by simp, rfl, rfl⟩
  exact ⟨rfl, hex, by norm_num [axisA], rfl,
    (c1_padding_extends_axis chartA axisA [seriesA] rfl).2.2.1 hex
      (by norm_num [axisA]) rfl⟩

/-! Stability of the pipeline under a second run (claim C3). -/

lemma setAllowZoom_dataMin (c : ChartState) (a : AxisState) (ss : List BubbleSeriesState) :
    (setAllowZoom c a ss).dataMin = a.dataMin := by
  unfold setAllowZoom; split <;> rfl

lemma setAllowZoom_dataMax (c : ChartState) (a : AxisState) (ss : List BubbleSeriesState) :
    (setAllowZoom c a ss).dataMax = a.dataMax := by
  unfold setAllowZoom; split <;> rfl

lemma setAllowZoom_isXAxis (c : ChartState) (a : AxisState) (ss : List BubbleSeriesState) :
    (setAllowZoom c a ss).isXAxis = a.isXAxis := by
  unfold setAllowZoom; split <;> rfl

lemma applyPadding_len (a : AxisState) (r : ℝ) (n : ℕ) (px : ℝ × ℝ) :
    (applyPadding a r n px).len = a.len := by
  simp only [applyPadding]; split_ifs <;> rfl

lemma applyPadding_dataMin (a : AxisState) (r : ℝ) (n : ℕ) (px : ℝ × ℝ) :
    (applyPadding a r n px).dataMin = a.dataMin := by
  simp only [applyPadding]; split_ifs <;> rfl

lemma applyPadding_dataMax (a : AxisState) (r : ℝ) (n : ℕ) (px : ℝ × ℝ) :
    (applyPadding a r n px).dataMax = a.dataMax := by
  simp only [applyPadding]; split_ifs <;> rfl

lemma applyPadding_isXAxis (a : AxisState) (r : ℝ) (n : ℕ) (px : ℝ × ℝ) :
    (applyPadding a r n px).isXAxis = a.isXAxis := by
  simp only [applyPadding]; split_ifs <;> rfl

lemma applyPadding_isLog (a : AxisState) (r : ℝ) (n : ℕ) (px : ℝ × ℝ) :
    (applyPadding a r n px).isLog = a.isLog := by
  simp only [applyPadding]; split_ifs <;> rfl

lemma applyPadding_options (a : AxisState) (r : ℝ) (n : ℕ) (px : ℝ × ℝ) :
    (applyPadding a r n px).options = a.options := by
  simp only [applyPadding]; split_ifs <;> rfl

lemma applyPadding_userMin (a : AxisState) (r : ℝ) (n : ℕ) (px : ℝ × ℝ) :
    (applyPadding a r n px).userMin = a.userMin := by
  simp only [applyPadding]; split_ifs <;> rfl

lemma applyPadding_userMax (a : AxisState) (r : ℝ) (n : ℕ) (px : ℝ × ℝ) :
    (applyPadding a r n px).userMax = a.userMax := by
  simp only [applyPadding]; split_ifs <;> rfl

lemma beforePadding_fst (c : ChartState) (a : AxisState) (ss : List BubbleSeriesState) :
    (beforePadding c a ss).1 =
      applyPadding (setAllowZoom c a ss) (a.max - a.min) (activeList c ss).length
        (paddingPx c a ss) := rfl

lemma beforePadding_snd (c : ChartState) (a : AxisState) (ss : List BubbleSeriesState) :
    (beforePadding c a ss).2 = paddedSeries c a ss := rfl

lemma seriesActive_resolveSizes (c : ChartState) (s : BubbleSeriesState) :
    seriesActive c (resolveSizes c s) = seriesActive c s := rfl

lemma resolveSizes_stable (c : ChartState) (s : BubbleSeriesState)
    (h1 : s.minPxSize = resolveSize (smallestSize c) s.options.minSize)
    (h2 : s.maxPxSize = max (resolveSize (smallestSize c) s.options.maxSize)
      (resolveSize (smallestSize c) s.options.minSize)) :
    resolveSizes c s = s := by
  unfold resolveSizes
  obtain ⟨bp, vis, o, xd, yd, zd, mn, mx, r⟩ := s
  simp only [BubbleSeriesState.mk.injEq, true_and, and_true]
  exact ⟨h1.symm, h2.symm⟩

lemma collectSeries_false (c : ChartState) (ss : List BubbleSeriesState) :
    collectSeries c false ss = ss := by
  unfold collectSeries
  simp

lemma radiiPass_false (c : ChartState) (z1 z2 : ℝ) (ss : List BubbleSeriesState) :
    radiiPass c false z1 z2 ss = ss := by
  unfold radiiPass
  simp

lemma seriesActive_setRadii (c : ChartState) (s : BubbleSeriesState)
    (r : List (Option ℝ)) :
    seriesActive c { s with radii := r } = seriesActive c s := rfl

lemma collectSeries_after_padded (c : ChartState) (z1 z2 : ℝ)
    (ss : List BubbleSeriesState) :
    collectSeries c true (radiiPass c true z1 z2 (collectSeries c true ss)) =
      radiiPass c true z1 z2 (collectSeries c true ss) := by
  unfold collectSeries radiiPass
  rw [List.map_map, List.map_map, List.map_map]
  refine List.map_congr_left fun s _ => ?_
  by_cases hax : seriesActive c s = true
  · simp only [Function.comp_apply, seriesActive_setRadii, seriesActive_resolveSizes,
      hax, Bool.and_self, if_true]
    exact resolveSizes_stable c _ rfl rfl
  · have hax' : seriesActive c s = false := by
      revert hax; cases seriesActive c s <;> simp
    simp [Function.comp_apply, seriesActive_setRadii, seriesActive_resolveSizes, hax']

lemma radiiPass_idem (c : ChartState) (z1 z2 : ℝ) (ss : List BubbleSeriesState) :
    radiiPass c true z1 z2 (radiiPass c true z1 z2 ss) =
      radiiPass c true z1 z2 ss := by
  unfold radiiPass
  rw [List.map_map]
  refine List.map_congr_left fun s _ => ?_
  by_cases hax : seriesActive c s = true
  · simp only [Function.comp_apply, seriesActive_setRadii, hax, Bool.and_self, if_true]
  · have hax' : seriesActive c s = false := by
      revert hax; cases seriesActive c s <;> simp
    simp [Function.comp_apply, seriesActive_setRadii, hax']

lemma zStep_congr (c : ChartState) (acc : ℝ × ℝ) (s t : BubbleSeriesState)
    (h1 : s.bubblePadding = t.bubblePadding) (h2 : s.visible = t.visible)
    (h3 : s.options = t.options) (h4 : s.zData = t.zData) :
    (if seriesActive c s = true then updateZ s.options s.zData acc else acc) =
      (if seriesActive c t = true then updateZ t.options t.zData acc else acc) := by
  unfold seriesActive
  rw [h1, h2, h3, h4]

lemma collectZ_map_congr (c : ChartState) (g : BubbleSeriesState → BubbleSeriesState)
    (hg : ∀ s, (g s).bubblePadding = s.bubblePadding ∧ (g s).visible = s.visible ∧
      (g s).options = s.options ∧ (g s).zData = s.zData)
    (ss : List BubbleSeriesState) :
    collectZ c (ss.map g) = collectZ c ss := by
  unfold collectZ
  rw [List.foldl_map]
  suffices key : ∀ (l : List BubbleSeriesState) (acc : ℝ × ℝ),
      l.foldl (fun acc s =>
        if seriesActive c (g s) = true then updateZ (g s).options (g s).zData acc
        else acc) acc =
      l.foldl (fun acc s =>
        if seriesActive c s = true then updateZ s.options s.zData acc else acc) acc by
    exact key ss _
  intro l
  induction l with
  | nil => intro acc; rfl
  | cons s t ih =>
      intro acc
      rw [List.foldl_cons, List.foldl_cons]
      rw [zStep_congr c acc (g s) s (hg s).1 (hg s).2.1 (hg s).2.2.1 (hg s).2.2.2]
      exact ih _

lemma collectZ_radiiPass (c : ChartState) (x : Bool) (z1 z2 : ℝ)
    (ss : List BubbleSeriesState) :
    collectZ c (radiiPass c x z1 z2 ss) = collectZ c ss :=
  collectZ_map_congr c _
    (fun s => by
      by_cases hax : (seriesActive c s && x) = true <;> simp [hax])
    ss

lemma collectZ_collectSeries (c : ChartState) (x : Bool) (ss : List BubbleSeriesState) :
    collectZ c (collectSeries c x ss) = collectZ c ss :=
  collectZ_map_congr c _
    (fun s => by
      by_cases hax : (seriesActive c s && x) = true <;> simp [hax, resolveSizes])
    ss

lemma activeList_map_congr (c : ChartState) (g : BubbleSeriesState → BubbleSeriesState)
    (hg : ∀ s, seriesActive c (g s) = seriesActive c s)
    (ss : List BubbleSeriesState) :
    (activeList c (ss.map g)).length = (activeList c ss).length := by
  unfold activeList
  induction ss with
  | nil => rfl
  | cons s t ih =>
      simp only [List.map_cons, List.filter_cons, hg s]
      by_cases h : seriesActive c s = true
      · simp only [h, if_true, List.length_cons, ih]
      · have h' : seriesActive c s = false := by
          revert h; cases seriesActive c s <;> simp
        simp only [h']
        simpa using ih

lemma paddedSeries_stable (c : ChartState) (a a' : AxisState)
    (ss : List BubbleSeriesState) (hx : a'.isXAxis = a.isXAxis) :
    paddedSeries c a' (paddedSeries c a ss) = paddedSeries c a ss := by
  simp only [paddedSeries]
  rw [hx]
  cases hxa : a.isXAxis with
  | false =>
      norm_num
      rw [collectSeries_false, radiiPass_false, collectSeries_false, radiiPass_false]
  | true =>
      norm_num
      rw [collectSeries_after_padded, collectZ_radiiPass, radiiPass_idem]

lemma pxAccum_congr_axis (c : ChartState) (a a' : AxisState) (range : ℝ)
    (ss : List BubbleSeriesState) (hmin : a'.min = a.min) (hlen : a'.len = a.len)
    (hdmin : a'.dataMin = a.dataMin) (hdmax : a'.dataMax = a.dataMax)
    (hX : a'.isXAxis = a.isXAxis) :
    pxAccum c a' range ss = pxAccum c a range ss := by
  unfold pxAccum
  rw [hmin, hlen, hdmin, hdmax, hX]

lemma activeList_padded_length (c : ChartState) (a : AxisState)
    (ss : List BubbleSeriesState) :
    (activeList c (paddedSeries c a ss)).length = (activeList c ss).length := by
  have h1 : ∀ (x : Bool) (z1 z2 : ℝ) (l : List BubbleSeriesState),
      (activeList c (radiiPass c x z1 z2 l)).length = (activeList c l).length :=
    fun x z1 z2 l => activeList_map_congr c _
      (fun s => by
        by_cases hax : (seriesActive c s && x) = true <;>
          simp [hax, seriesActive_setRadii])
      l
  have h2 : ∀ (x : Bool) (l : List BubbleSeriesState),
      (activeList c (collectSeries c x l)).length = (activeList c l).length :=
    fun x l => activeList_map_congr c _
      (fun s => by
        by_cases hax : (seriesActive c s && x) = true <;>
          simp [hax, seriesActive_resolveSizes])
      l
  simp only [paddedSeries]
  rw [h1, h2]

/-! Scenario A, second pass (claim C3). -/

lemma aCollect2 : collectSeries chartA true [seriesA2] = [seriesA2] := by
  simp [collectSeries, seriesActive, resolveSizes, resolveSize, smallestSize, chartA,
    seriesA2, seriesA1, seriesA, optsA]

lemma aZ2 : collectZ chartA [seriesA2] = (1, 2) := by
  have h1 : max (1:ℝ) (-maxValue) = 1 := max_eq_left (neg_maxValue_le 1 (by norm_num))
  have h2 : min maxValue (1:ℝ) = 1 := min_eq_right (le_maxValue 1 (by norm_num))
  have h3 : max (-maxValue) (2:ℝ) = 2 := max_eq_right (neg_maxValue_le 2 (by norm_num))
  simp [collectZ, seriesActive, updateZ, arrayMin, arrayMax, seriesA2, seriesA1, seriesA,
    optsA, chartA, jsNum, h1, h2, h3]

lemma aPadded2 : paddedSeries chartA axisA2 [seriesA2] = [seriesA2] := by
  simp only [paddedSeries, show axisA2.isXAxis = true from rfl, if_true, aCollect2, aZ2]
  simp only [radiiPass, List.map,
    show (seriesActive chartA seriesA2 && true) = true from rfl, if_true]
  rw [show getRadii seriesA2.options seriesA2.zData 1 2 seriesA2.minPxSize
      seriesA2.maxPxSize = [some 0, some 60, some 0] from aRadii]
  rfl

lemma aPx2 : paddingPx chartA axisA2 [seriesA2] = (-10, 110) := by
  rw [paddingPx, aPadded2]
  simp only [pxAccum, List.foldl, seriesActive, seriesA2, seriesA1, seriesA, axisA2,
    axisA, chartA]
  norm_num [seriesPxLoop, pxPointStep, List.getD, jsNum]

lemma aPass2 : (beforePadding chartA axisA2 [seriesA2]).1.min = -(9/32) := by
  rw [show (beforePadding chartA axisA2 [seriesA2]).1 =
      applyPadding (setAllowZoom chartA axisA2 [seriesA2]) (axisA2.max - axisA2.min)
        (activeList chartA [seriesA2]).length (paddingPx chartA axisA2 [seriesA2])
      from rfl, aPx2]
  simp only [setAllowZoom, activeList, applyPadding, axisA2, axisA, chartA, seriesA2,
    seriesA1, seriesA, optsA]
  norm_num [seriesActive, List.filter, pick2]

/-- C3 (counterexample): in scenario A the first `beforePadding` pass moves
`axis.min` from `0` to `-1/8`, and a second pass on the resulting state (same
data, size configuration and plot box) moves it further to `-9/32`: the padding
pass is not a fixed point after one run. -/
theorem c3_counterexample :
    (beforePadding chartA (beforePadding chartA axisA [seriesA]).1
        (beforePadding chartA axisA [seriesA]).2).1.min ≠
      (beforePadding chartA axisA [seriesA]).1.min := by
  have h1 : (beforePadding chartA axisA [seriesA]).1 = axisA2 := aPass1
  have h2 : (beforePadding chartA axisA [seriesA]).2 = [seriesA2] := aPadded
  rw [h1, h2, aPass2]
  norm_num [axisA2, axisA]

/-- C3 (amended): the padding pass is deterministic, so if the first run leaves
`axis.min` and `axis.max` unchanged, a second run with the resulting axis and
series state leaves them unchanged as well; in general, however, the pass is
NOT idempotent — a second run can extend the axis extent further (see the
counterexample). -/
theorem c3_amended (c : ChartState) (a : AxisState) (ss : List BubbleSeriesState)
    (hmin : (beforePadding c a ss).1.min = a.min)
    (hmax : (beforePadding c a ss).1.max = a.max) :
    (beforePadding c (beforePadding c a ss).1 (beforePadding c a ss).2).1.min =
      (beforePadding c a ss).1.min ∧
    (beforePadding c (beforePadding c a ss).1 (beforePadding c a ss).2).1.max =
      (beforePadding c a ss).1.max := by
  set a1 := (beforePadding c a ss).1 with ha1
  set ss2 := (beforePadding c a ss).2 with hss2
  have hlen : a1.len = a.len := by
    rw [ha1, beforePadding_fst, applyPadding_len, setAllowZoom_len]
  have hdmin : a1.dataMin = a.dataMin := by
    rw [ha1, beforePadding_fst, applyPadding_dataMin, setAllowZoom_dataMin]
  have hdmax : a1.dataMax = a.dataMax := by
    rw [ha1, beforePadding_fst, applyPadding_dataMax, setAllowZoom_dataMax]
  have hX : a1.isXAxis = a.isXAxis := by
    rw [ha1, beforePadding_fst, applyPadding_isXAxis, setAllowZoom_isXAxis]
  have hlog : a1.isLog = a.isLog := by
    rw [ha1, beforePadding_fst, applyPadding_isLog, setAllowZoom_isLog]
  have hopts : a1.options = a.options := by
    rw [ha1, beforePadding_fst, applyPadding_options, setAllowZoom_options]
  have humin : a1.userMin = a.userMin := by
    rw [ha1, beforePadding_fst, applyPadding_userMin, setAllowZoom_userMin]
  have humax : a1.userMax = a.userMax := by
    rw [ha1, beforePadding_fst, applyPadding_userMax, setAllowZoom_userMax]
  have hrange : a1.max - a1.min = a.max - a.min := by rw [hmin, hmax]
  have hPadded : paddedSeries c a1 ss2 = ss2 := by
    rw [hss2, beforePadding_snd]
    exact paddedSeries_stable c a a1 ss hX
  have hPx : paddingPx c a1 ss2 = paddingPx c a ss := by
    rw [paddingPx, hPadded, hrange,
      pxAccum_congr_axis c a a1 (a.max - a.min) ss2 hmin hlen hdmin hdmax hX, hss2,
      beforePadding_snd, paddingPx]
  have hN : (activeList c ss2).length = (activeList c ss).length := by
    rw [hss2, beforePadding_snd]
    exact activeList_padded_length c a ss
  have hb2 : (beforePadding c a1 ss2).1 =
      applyPadding (setAllowZoom c a1 ss2) (a1.max - a1.min)
        (activeList c ss2).length (paddingPx c a1 ss2) := rfl
  rw [hb2, hrange, hN, hPx]
  set px := paddingPx c a ss with hpx
  set n := (activeList c ss).length with hn
  by_cases hcond : n ≠ 0 ∧ 0 < a.max - a.min ∧ a.isLog = false
  · have hcond2 : n ≠ 0 ∧ 0 < a.max - a.min ∧ (setAllowZoom c a1 ss2).isLog = false :=
      ⟨hcond.1, hcond.2.1, by rw [setAllowZoom_isLog, hlog]; exact hcond.2.2⟩
    have hcond1 : n ≠ 0 ∧ 0 < a.max - a.min ∧ (setAllowZoom c a ss).isLog = false :=
      ⟨hcond.1, hcond.2.1, by rw [setAllowZoom_isLog]; exact hcond.2.2⟩
    have hpass1min : (if pick2 a.options.min a.userMin = none then
        a.min + px.1 / (a.len / (a.max - a.min) *
          ((a.len + px.1 - (px.2 - a.len)) / a.len))
      else a.min) = a.min := by
      have h1min : (applyPadding (setAllowZoom c a ss) (a.max - a.min) n px).min =
          a.min := hmin
      rw [applyPadding_min _ _ _ _ hcond1, setAllowZoom_options, setAllowZoom_userMin,
        setAllowZoom_min, setAllowZoom_len] at h1min
      exact h1min
    have hpass1max : (if pick2 a.options.max a.userMax = none then
        a.max + (px.2 - a.len) / (a.len / (a.max - a.min) *
          ((a.len + px.1 - (px.2 - a.len)) / a.len))
      else a.max) = a.max := by
      have h1max : (applyPadding (setAllowZoom c a ss) (a.max - a.min) n px).max =
          a.max := hmax
      rw [applyPadding_max _ _ _ _ hcond1, setAllowZoom_options, setAllowZoom_userMax,
        setAllowZoom_max, setAllowZoom_len] at h1max
      exact h1max
    constructor
    · rw [applyPadding_min _ _ _ _ hcond2, setAllowZoom_options, setAllowZoom_userMin,
        setAllowZoom_min, setAllowZoom_len, hopts, humin, hlen]
      by_cases hpin : pick2 a.options.min a.userMin = none
      · rw [if_pos hpin]
        rw [if_pos hpin] at hpass1min
        have hdelta : px.1 / (a.len / (a.max - a.min) *
            ((a.len + px.1 - (px.2 - a.len)) / a.len)) = 0 := by linarith
        rw [hdelta, add_zero]
      · rw [if_neg hpin]
    · rw [applyPadding_max _ _ _ _ hcond2, setAllowZoom_options, setAllowZoom_userMax,
        setAllowZoom_max, setAllowZoom_len, hopts, humax, hlen]
      by_cases hpin : pick2 a.options.max a.userMax = none
      · rw [if_pos hpin]
        rw [if_pos hpin] at hpass1max
        have hdelta : (px.2 - a.len) / (a.len / (a.max - a.min) *
            ((a.len + px.1 - (px.2 - a.len)) / a.len)) = 0 := by linarith
        rw [hdelta, add_zero]
      · rw [if_neg hpin]
  · have hcond2 : ¬(n ≠ 0 ∧ 0 < a.max - a.min ∧ (setAllowZoom c a1 ss2).isLog = false) := by
      rw [setAllowZoom_isLog, hlog]
      exact hcond
    rw [applyPadding_not_cond _ _ _ _ hcond2, setAllowZoom_min, setAllowZoom_max]
    exact ⟨rfl, rfl⟩

/-- Inactive series (no `bubblePadding`) used by the C3 witness. -/
def c3wSeries : BubbleSeriesState := { seriesA with bubblePadding := false }

/-- C3 witness: with no active series the first pass leaves the axis extremes
unchanged, and the second pass then leaves them unchanged as well. -/
theorem c3_witness :
    (beforePadding chartA axisA [c3wSeries]).1.min = axisA.min ∧
      (beforePadding chartA axisA [c3wSeries]).1.max = axisA.max ∧
      (beforePadding chartA (beforePadding chartA axisA [c3wSeries]).1
          (beforePadding chartA axisA [c3wSeries]).2).1.min =
        (beforePadding chartA axisA [c3wSeries]).1.min ∧
      (beforePadding chartA (beforePadding chartA axisA [c3wSeries]).1
          (beforePadding chartA axisA [c3wSeries]).2).1.max =
        (beforePadding chartA axisA [c3wSeries]).1.max := by
  have hact : (activeList chartA [c3wSeries]).length = 0 := by
    simp [activeList, seriesActive, c3wSeries, seriesA]
  have hmin : (beforePadding chartA axisA [c3wSeries]).1.min = axisA.min := by
    rw [beforePadding_fst, applyPadding_not_cond _ _ _ _ (fun hc => hc.1 hact),
      setAllowZoom_min]
  have hmax : (beforePadding chartA axisA [c3wSeries]).1.max = axisA.max := by
    rw [beforePadding_fst, applyPadding_not_cond _ _ _ _ (fun hc => hc.1 hact),
      setAllowZoom_max]
  have h := c3_amended chartA axisA [c3wSeries] hmin hmax
  exact ⟨hmin, hmax, h.1, h.2⟩

/-! Machinery for claim C8: the point loop as a fold over (data, radius) pairs. -/

/-- The point loop re-expressed as a right fold over the zipped
`(data[i], radii[i])` pairs (the `while (i--)` loop processes the last pair
first, which is exactly `foldr`). -/
def pxFold (amin transA dMin dMax : ℝ) (pts : List (Option ℝ × Option ℝ))
    (px : ℝ × ℝ) : ℝ × ℝ :=
  pts.foldr (fun p acc => pxPointStep amin transA dMin dMax p.1 p.2 acc) px

lemma seriesPxLoop_eq_pxFold_take (amin transA dMin dMax : ℝ)
    (data radii : List (Option ℝ)) (hlen : data.length = radii.length) :
    ∀ (n : ℕ), n ≤ data.length → ∀ px,
      seriesPxLoop amin transA dMin dMax data radii n px =
        pxFold amin transA dMin dMax ((data.zip radii).take n) px := by
  intro n
  induction n with
  | zero => intro _ px; rfl
  | succ m ih =>
      intro hm px
      have hm' : m < data.length := hm
      have hmr : m < radii.length := hlen ▸ hm'
      have hmz : m < (data.zip radii).length := by
        rw [List.length_zip]
        exact lt_min hm' hmr
      have hget : (data.zip radii)[m]? = some (data[m], radii[m]) := by
        rw [List.getElem?_eq_getElem hmz, List.getElem_zip]
      have htake : (data.zip radii).take (m + 1) =
          (data.zip radii).take m ++ [(data[m], radii[m])] := by
        rw [List.take_succ, hget]
        rfl
      have hd : data.getD m none = data[m] := List.getD_eq_getElem data none hm'
      have hr : radii.getD m none = radii[m] := List.getD_eq_getElem radii none hmr
      rw [show seriesPxLoop amin transA dMin dMax data radii (m + 1) px =
          seriesPxLoop amin transA dMin dMax data radii m
            (pxPointStep amin transA dMin dMax (data.getD m none) (radii.getD m none) px)
          from rfl,
        ih (le_of_lt hm') _, htake]
      unfold pxFold
      rw [List.foldr_append, hd, hr]
      rfl

lemma seriesPxLoop_eq_pxFold (amin transA dMin dMax : ℝ)
    (data radii : List (Option ℝ)) (hlen : data.length = radii.length) (px : ℝ × ℝ) :
    seriesPxLoop amin transA dMin dMax data radii data.length px =
      pxFold amin transA dMin dMax (data.zip radii) px := by
  rw [seriesPxLoop_eq_pxFold_take amin transA dMin dMax data radii hlen data.length
    (le_refl _) px, List.take_of_length_le]
  rw [List.length_zip, hlen]
  exact min_le_right _ _

lemma pxFold_bounds (amin transA dMin dMax : ℝ) (pts : List (Option ℝ × Option ℝ))
    (px : ℝ × ℝ) :
    (pxFold amin transA dMin dMax pts px).1 ≤ px.1 ∧
      px.2 ≤ (pxFold amin transA dMin dMax pts px).2 := by
  induction pts with
  | nil => exact ⟨le_refl _, le_refl _⟩
  | cons p t ih =>
      have hstep := pxPointStep_bounds amin transA dMin dMax p.1 p.2
        (pxFold amin transA dMin dMax t px)
      exact ⟨le_trans hstep.1 ih.1, le_trans ih.2 hstep.2⟩

lemma pxPointStep_null (amin transA dMin dMax d : ℝ) (acc : ℝ × ℝ)
    (hd : dMin ≤ d ∧ d ≤ dMax) (h1 : acc.1 ≤ (d - amin) * transA)
    (h2 : (d - amin) * transA ≤ acc.2) :
    pxPointStep amin transA dMin dMax (some d) none acc = acc := by
  simp only [pxPointStep, if_pos hd, jsNum_none, sub_zero, add_zero]
  exact Prod.ext (min_eq_right h1) (max_eq_right h2)

lemma pxFold_null_removal (amin transA dMin dMax len d : ℝ)
    (l1 l2 : List (Option ℝ × Option ℝ)) (px : ℝ × ℝ)
    (hpx1 : px.1 ≤ 0) (hpx2 : len ≤ px.2) (hd : dMin ≤ d ∧ d ≤ dMax)
    (hp1 : 0 ≤ (d - amin) * transA) (hp2 : (d - amin) * transA ≤ len) :
    pxFold amin transA dMin dMax (l1 ++ (some d, none) :: l2) px =
      pxFold amin transA dMin dMax (l1 ++ l2) px := by
  unfold pxFold
  rw [List.foldr_append, List.foldr_append, List.foldr_cons]
  have hb := pxFold_bounds amin transA dMin dMax l2 px
  congr 1
  exact pxPointStep_null amin transA dMin dMax d _ hd
    (le_trans (le_trans hb.1 hpx1) hp1) (le_trans hp2 (le_trans hpx2 hb.2))

/-- C8 (amended): a null z value always yields a null radius, and — with fixed
radii — the corresponding point's step in the `(pxMin, pxMax)` loop is a no-op
whenever the axis extremes enclose the data extremes (so its unpadded position
lies within `[0, axisLength]`): removing the `(some d, null)` pair from the
zipped point list leaves the loop's result unchanged.  (The null z still
participates in the z-range collection, where it coerces to `0` — see the
counterexample — so removing the POINT entirely can still change the axis.) -/
theorem c8_amended (o : BubbleOptions) (zData : List (Option ℝ))
    (zMin zMax mS mX : ℝ) (i : ℕ) (hnull : zData.getD i none = none)
    (amin amax len dMin dMax d : ℝ)
    (d1 d2 r1 r2 : List (Option ℝ)) (h1 : d1.length = r1.length)
    (h2 : d2.length = r2.length) (px : ℝ × ℝ) (hpx1 : px.1 ≤ 0) (hpx2 : len ≤ px.2)
    (hr : 0 < amax - amin) (hlen : 0 ≤ len)
    (hencl1 : amin ≤ dMin) (hencl2 : dMax ≤ amax) (hd : dMin ≤ d ∧ d ≤ dMax) :
    (getRadii o zData zMin zMax mS mX).getD i none = none ∧
      seriesPxLoop amin (len / (amax - amin)) dMin dMax (d1 ++ some d :: d2)
        (r1 ++ none :: r2) (d1 ++ some d :: d2).length px =
      seriesPxLoop amin (len / (amax - amin)) dMin dMax (d1 ++ d2) (r1 ++ r2)
        (d1 ++ d2).length px := by
  refine ⟨getRadii_getD_none o zData zMin zMax mS mX i hnull, ?_⟩
  have hp1 : 0 ≤ (d - amin) * (len / (amax - amin)) :=
    mul_nonneg (by linarith) (div_nonneg hlen (le_of_lt hr))
  have hp2 : (d - amin) * (len / (amax - amin)) ≤ len := by
    have hq : (d - amin) / (amax - amin) ≤ 1 := by
      rw [div_le_one hr]
      linarith
    have : (d - amin) * (len / (amax - amin)) = (d - amin) / (amax - amin) * len := by
      ring
    rw [this]
    calc (d - amin) / (amax - amin) * len ≤ 1 * len :=
          mul_le_mul_of_nonneg_right hq hlen
      _ = len := one_mul len
  have hlenA : (d1 ++ some d :: d2).length = (r1 ++ none :: r2).length := by
    simp [h1, h2]
  have hlenB : (d1 ++ d2).length = (r1 ++ r2).length := by
    simp [h1, h2]
  rw [seriesPxLoop_eq_pxFold _ _ _ _ _ _ hlenA px,
    seriesPxLoop_eq_pxFold _ _ _ _ _ _ hlenB px,
    List.zip_append h1, List.zip_append h1]
  rw [show (some d :: d2).zip (none :: r2) = (some d, (none : Option ℝ)) :: d2.zip r2
    from rfl]
  exact pxFold_null_removal amin (len / (amax - amin)) dMin dMax len d _ _ px hpx1 hpx2
    hd hp1 hp2

/-! Concrete scenario B — one series with a null-z point, against the identical
series with that point removed.  Used by claim C8. -/

/-- Scenario B options: width sizing, `minSize` 0px, `maxSize` 8px. -/
def optsB : BubbleOptions :=
  { minSize := .px 0, maxSize := .px 8, sizeBy := "width", sizeByAbsoluteValue := false,
    zThreshold := 0, zMin := none, zMax := none, displayNegative := none }

/-- Scenario B series: points `(1, z=5)` and `(0, z=null)`. -/
def seriesB : BubbleSeriesState :=
  { bubblePadding := true, visible := true, options := optsB,
    xData := [some 1, some 0], yData := [some 0, some 0], zData := [some 5, none],
    minPxSize := 0, maxPxSize := 0, radii := [] }

/-- Scenario B series with the null-z point removed. -/
def seriesBr : BubbleSeriesState :=
  { bubblePadding := true, visible := true, options := optsB,
    xData := [some 1], yData := [some 0], zData := [some 5],
    minPxSize := 0, maxPxSize := 0, radii := [] }

/-- Scenario B series after size resolution. -/
def seriesB1 : BubbleSeriesState := { seriesB with minPxSize := 0, maxPxSize := 8 }

/-- Scenario B series after the radii pass. -/
def seriesB2 : BubbleSeriesState := { seriesB1 with radii := [some 4, none] }

/-- Reduced scenario B series after size resolution. -/
def seriesBr1 : BubbleSeriesState := { seriesBr with minPxSize := 0, maxPxSize := 8 }

/-- Reduced scenario B series after the radii pass. -/
def seriesBr2 : BubbleSeriesState := { seriesBr1 with radii := [some 2] }

lemma bCollect : collectSeries chartA true [seriesB] = [seriesB1] := by
  simp [collectSeries, seriesActive, resolveSizes, resolveSize, smallestSize, chartA,
    seriesB, seriesB1, optsB]

lemma bZ : collectZ chartA [seriesB1] = (0, 5) := by
  have ham : arrayMin [some (5:ℝ), none] = none := by
    norm_num [arrayMin, jsNum]
  have haM : arrayMax [some (5:ℝ), none] = some 5 := by
    norm_num [arrayMax, jsNum]
  have h1 : max (0:ℝ) (-maxValue) = 0 := max_eq_left (neg_maxValue_le 0 (by norm_num))
  have h2 : min maxValue (0:ℝ) = 0 := min_eq_right (le_maxValue 0 (by norm_num))
  have h3 : max (-maxValue) (5:ℝ) = 5 := max_eq_right (neg_maxValue_le 5 (by norm_num))
  have step : collectZ chartA [seriesB1] =
      updateZ optsB [some 5, none] (maxValue, -maxValue) := by
    simp [collectZ, seriesActive, seriesB1, seriesB]
  rw [step, updateZ_ne_nil _ _ _ (by simp), ham, haM]
  norm_num [optsB, h1, h2, h3, show ((none : Option Bool) = some false) = False by simp]

lemma bRadii : getRadii optsB [some 5, none] 0 5 0 8 = [some 4, none] := by
  norm_num [getRadii, radiiLoop, radiusOf, sizeByArea, optsB]

lemma bPadded : paddedSeries chartA axisA [seriesB] = [seriesB2] := by
  simp only [paddedSeries, show axisA.isXAxis = true from rfl, if_true, bCollect, bZ]
  simp only [radiiPass, List.map,
    show (seriesActive chartA seriesB1 && true) = true from rfl, if_true]
  rw [show getRadii seriesB1.options seriesB1.zData 0 5 seriesB1.minPxSize
      seriesB1.maxPxSize = [some 4, none] from bRadii]
  rfl

lemma bPx : paddingPx chartA axisA [seriesB] = (0, 104) := by
  rw [paddingPx, bPadded]
  simp only [pxAccum, List.foldl, seriesActive, seriesB2, seriesB1, seriesB, axisA, chartA]
  norm_num [seriesPxLoop, pxPointStep, List.getD, jsNum]

lemma bPass1 : (beforePadding chartA axisA [seriesB]).1.max = 25/24 := by
  rw [show (beforePadding chartA axisA [seriesB]).1 =
      applyPadding (setAllowZoom chartA axisA [seriesB]) (axisA.max - axisA.min)
        (activeList chartA [seriesB]).length (paddingPx chartA axisA [seriesB])
      from rfl, bPx]
  simp only [setAllowZoom, activeList, applyPadding, axisA, chartA, seriesB, optsB]
  norm_num [seriesActive, List.filter, pick2]

lemma brCollect : collectSeries chartA true [seriesBr] = [seriesBr1] := by
  simp [collectSeries, seriesActive, resolveSizes, resolveSize, smallestSize, chartA,
    seriesBr, seriesBr1, optsB]

lemma brZ : collectZ chartA [seriesBr1] = (5, 5) := by
  have h1 : max (5:ℝ) (-maxValue) = 5 := max_eq_left (neg_maxValue_le 5 (by norm_num))
  have h2 : min maxValue (5:ℝ) = 5 := min_eq_right (le_maxValue 5 (by norm_num))
  have h3 : max (-maxValue) (5:ℝ) = 5 := max_eq_right (neg_maxValue_le 5 (by norm_num))
  have step : collectZ chartA [seriesBr1] =
      updateZ optsB [some 5] (maxValue, -maxValue) := by
    simp [collectZ, seriesActive, seriesBr1, seriesBr]
  rw [step, updateZ_ne_nil _ _ _ (by simp)]
  norm_num [arrayMin, arrayMax, jsNum, optsB, h1, h2, h3,
    show ((none : Option Bool) = some false) = False by simp]

lemma brRadii : getRadii optsB [some 5] 5 5 0 8 = [some 2] := by
  norm_num [getRadii, radiiLoop, radiusOf, sizeByArea, optsB]

lemma brPadded : paddedSeries chartA axisA [seriesBr] = [seriesBr2] := by
  simp only [paddedSeries, show axisA.isXAxis = true from rfl, if_true, brCollect, brZ]
  simp only [radiiPass, List.map,
    show (seriesActive chartA seriesBr1 && true) = true from rfl, if_true]
  rw [show getRadii seriesBr1.options seriesBr1.zData 5 5 seriesBr1.minPxSize
      seriesBr1.maxPxSize = [some 2] from brRadii]
  rfl

lemma brPx : paddingPx chartA axisA [seriesBr] = (0, 102) := by
  rw [paddingPx, brPadded]
  simp only [pxAccum, List.foldl, seriesActive, seriesBr2, seriesBr1, seriesBr, axisA,
    chartA]
  norm_num [seriesPxLoop, pxPointStep, List.getD, jsNum]

lemma brPass1 : (beforePadding chartA axisA [seriesBr]).1.max = 50/49 := by
  rw [show (beforePadding chartA axisA [seriesBr]).1 =
      applyPadding (setAllowZoom chartA axisA [seriesBr]) (axisA.max - axisA.min)
        (activeList chartA [seriesBr]).length (paddingPx chartA axisA [seriesBr])
      from rfl, brPx]
  simp only [setAllowZoom, activeList, applyPadding, axisA, chartA, seriesBr, optsB]
  norm_num [seriesActive, List.filter, pick2]

/-- C8 (counterexample): `seriesB` has a point `(x = 0, z = null)`; removing it
(giving `seriesBr`) changes the resulting axis maximum from `25/24` to `50/49`.
The null z is not absent from the extent computation: it participates in the
z-range collection (`arrayMin` coerces it to `0`), which changes the other
point's radius and hence the accumulated `pxMax` (104 vs 102). -/
theorem c8_counterexample :
    seriesB.zData.getD 1 none = none ∧
      seriesB.xData = [some 1, some 0] ∧ seriesB.zData = [some 5, none] ∧
      seriesBr.xData = [some 1] ∧ seriesBr.zData = [some 5] ∧
      paddingPx chartA axisA [seriesB] = (0, 104) ∧
      paddingPx chartA axisA [seriesBr] = (0, 102) ∧
      (beforePadding chartA axisA [seriesB]).1.max = 25/24 ∧
      (beforePadding chartA axisA [seriesBr]).1.max = 50/49 ∧
      ((25:ℝ)/24 ≠ 50/49) :=
  ⟨rfl, rfl, rfl, rfl, rfl, bPx, brPx, bPass1, brPass1, by norm_num⟩

/-- C8 witness: the amended claim at a concrete input — the null-z point of
scenario B gets a null radius, and dropping its `(some 0, null)` pair from the
point loop leaves `(pxMin, pxMax)` unchanged. -/
theorem c8_witness :
    ([some (5:ℝ), none].getD 1 none = none) ∧
      ((0:ℝ), (100:ℝ)).1 ≤ 0 ∧ (100:ℝ) ≤ ((0:ℝ), (100:ℝ)).2 ∧
      (0:ℝ) < 1 - 0 ∧ (0:ℝ) ≤ 100 ∧ (0:ℝ) ≤ 0 ∧ (1:ℝ) ≤ 1 ∧
      ((0:ℝ) ≤ 0 ∧ (0:ℝ) ≤ 1) ∧
      ((getRadii optsB [some 5, none] 0 5 0 8).getD 1 none = none ∧
        seriesPxLoop 0 (100 / (1 - 0)) 0 1 ([some 1] ++ some 0 :: [])
          ([some 4] ++ none :: []) ([some 1] ++ some 0 :: []).length (0, 100) =
        seriesPxLoop 0 (100 / (1 - 0)) 0 1 ([some 1] ++ [])
          ([some 4] ++ []) ([some 1] ++ []).length (0, 100)) :=
  ⟨rfl, by norm_num, by norm_num, by norm_num, by norm_num, by norm_num, by norm_num,
    by norm_num,
    c8_amended optsB [some 5, none] 0 5 0 8 1 rfl 0 1 100 0 1 0
      [some 1] [] [some 4] [] rfl rfl (0, 100) (by norm_num) (by norm_num)
      (by norm_num) (by norm_num) (by norm_num) (by norm_num) (by norm_num)⟩

end BubbleModel
